import Mathlib

/-!
Shallow embedding of the intent-routing / retrieval core of the Stay_Easy
hotel-concierge repository (`services/qa_agent.py`, `main_final.py`).

Python strings are modelled as Lean `String` (lists of characters), Python
floats as `ℚ` (exact rationals, with the float comparisons of the source
mapped to the corresponding rational comparisons), Python dicts either as
structures (fixed-schema rows) or association lists (open string maps).
External collaborators (LLM, Google Sheets, clock) are modelled as oracle
inputs; exceptions are modelled with `Except`.
-/

namespace StayEasy

/-- Characters matched by Python's `\s` regex class / `str.split()`. -/
def isPyWs (c : Char) : Bool :=
  c = ' ' || c = '\t' || c = '\n' || c = '\x0d' || c = '\x0c' || c = '\x0b'

/-- Python `str.lower()` (ASCII range, which is all the repository feeds it). -/
def pyLower (s : String) : String :=
  ⟨s.data.map Char.toLower⟩

/-- Python `str.strip()`: drop leading and trailing whitespace. -/
def pyStrip (s : String) : String :=
  ⟨((s.data.dropWhile isPyWs).reverse.dropWhile isPyWs).reverse⟩

/-- Collapse every whitespace run to a single blank (`re.sub(r"\s+", " ", s)`):
the flag records whether the previous character was whitespace, so only the
first character of each run is kept, as a blank. -/
def squeezeWsAux : Bool → List Char → List Char
  | _, [] => []
  | inWs, c :: cs =>
    if isPyWs c then
      if inWs then squeezeWsAux true cs else ' ' :: squeezeWsAux true cs
    else c :: squeezeWsAux false cs

/-- `re.sub(r"\s+", " ", s)` on a character list. -/
def squeezeWs (l : List Char) : List Char := squeezeWsAux false l

/-- `re.sub(r"[^a-z0-9\s]", " ", s)` on an already-lowercased string. -/
def keepAlnumWs (s : String) : String :=
  ⟨s.data.map (fun c =>
    if ('a' ≤ c && c ≤ 'z') || ('0' ≤ c && c ≤ '9') || isPyWs c then c else ' ')⟩

/-- `qa_agent._normalize_text`: lower-case, replace non-`[a-z0-9\s]` by a
blank, collapse whitespace runs, strip.  Empty input yields empty output. -/
def _normalize_text (s : String) : String :=
  if s = "" then ""
  else pyStrip ⟨squeezeWs (keepAlnumWs (pyLower s)).data⟩

/-- Python `str.split()` (no argument): split on whitespace runs, no empties. -/
def pySplit (s : String) : List String :=
  ((s.data.splitOnP isPyWs).map (fun l => (⟨l⟩ : String))).filter (· ≠ "")

/-- Python substring test `needle in hay` on lists of characters. -/
def listSub (needle : List Char) : List Char → Bool
  | [] => needle.isEmpty
  | c :: t => needle.isPrefixOf (c :: t) || listSub needle t

/-- Python substring test `needle in hay` for strings. -/
def strIn (needle hay : String) : Bool :=
  listSub needle.data hay.data

/-! ### difflib.SequenceMatcher (isjunk = None), as used by `_score_doc`

`SequenceMatcher(None, a, b).ratio()` = `2*M/(len(a)+len(b))` where `M` is
the total size of the matching blocks found by the greedy
Ratcliff–Obershelp recursion below (CPython `difflib.py`). -/

/-- Occurrences of `c` in `b`, ascending (the `b2j` index lists). -/
def positionsOf (b : List Char) (c : Char) : List Nat :=
  (List.range b.length).filter (fun j => b.getD j ' ' = c)

/-- Autojunk: with `isjunk=None`, when `len(b) >= 200` the "popular"
elements (more than `len(b)//100 + 1` occurrences) are dropped from `b2j`. -/
def isPopular (b : List Char) (c : Char) : Bool :=
  decide (200 ≤ b.length) && decide (b.length / 100 + 1 < (b.filter (· = c)).length)

/-- `self.b2j[c]` after `__chain_b` (junk set empty, autojunk applied). -/
def b2j (b : List Char) (c : Char) : List Nat :=
  if isPopular b c then [] else positionsOf b c

/-- A matching block `(besti, bestj, size)`. -/
structure FLM where
  besti : Nat
  bestj : Nat
  size : Nat
deriving Repr, DecidableEq

/-- One step of the inner `for j in b2j[a[i]]` loop of `find_longest_match`:
`k = j2len.get(j-1, 0) + 1`, record it in `newj2len`, update the best. -/
def flmInner (i : Nat) (j2len : List (Nat × Nat)) :
    List Nat → List (Nat × Nat) × FLM → List (Nat × Nat) × FLM
  | [], st => st
  | j :: js, (newj2len, best) =>
    let prev := if j = 0 then 0 else ((j2len.lookup (j - 1)).getD 0)
    let k := prev + 1
    let best' := if best.size < k then ⟨i + 1 - k, j + 1 - k, k⟩ else best
    flmInner i j2len js ((j, k) :: newj2len, best')

/-- The `for i in range(alo, ahi)` loop of `find_longest_match`. -/
def flmMain (a : List Char) (bmap : Char → List Nat) (blo bhi : Nat) :
    List Nat → List (Nat × Nat) × FLM → FLM
  | [], (_, best) => best
  | i :: is, (j2len, best) =>
    let js := (bmap (a.getD i ' ')).filter (fun j => blo ≤ j && j < bhi)
    let st := flmInner i j2len js ([], best)
    flmMain a bmap blo bhi is st

/-- Backward extension `while besti > alo and bestj > blo and a[besti-1] == b[bestj-1]`
(the junk set is empty, so `not isbjunk(...)` always holds).  Each step
decrements `besti`, so `besti` itself bounds the iteration count (first
argument, a fuel that never runs out). -/
def extendBack (a b : List Char) (alo blo : Nat) : Nat → Nat → Nat → Nat → FLM
  | 0, besti, bestj, size => ⟨besti, bestj, size⟩
  | fuel + 1, besti, bestj, size =>
    if alo < besti ∧ blo < bestj ∧ a.getD (besti - 1) ' ' = b.getD (bestj - 1) ' ' then
      extendBack a b alo blo fuel (besti - 1) (bestj - 1) (size + 1)
    else ⟨besti, bestj, size⟩

/-- Forward extension `while besti+size < ahi and bestj+size < bhi and
a[besti+size] == b[bestj+size]`.  Each step needs `besti+size < ahi`, so
`ahi` bounds the iteration count (first argument, a fuel that never runs
out). -/
def extendFwd (a b : List Char) (ahi bhi besti bestj : Nat) : Nat → Nat → Nat
  | 0, size => size
  | fuel + 1, size =>
    if besti + size < ahi ∧ bestj + size < bhi ∧
        a.getD (besti + size) ' ' = b.getD (bestj + size) ' ' then
      extendFwd a b ahi bhi besti bestj fuel (size + 1)
    else size

/-- CPython `SequenceMatcher.find_longest_match` over `[alo,ahi) × [blo,bhi)`. -/
def findLongestMatch (a b : List Char) (alo ahi blo bhi : Nat) : FLM :=
  let best0 := flmMain a (b2j b) blo bhi (List.range' alo (ahi - alo)) ([], ⟨alo, blo, 0⟩)
  let bk := extendBack a b alo blo best0.besti best0.besti best0.bestj best0.size
  let sz := extendFwd a b ahi bhi bk.besti bk.bestj ahi bk.size
  ⟨bk.besti, bk.bestj, sz⟩

/-- `get_matching_blocks` recursion (fuel-bounded; `a.length + b.length + 1`
fuel always suffices since each recursive call shrinks the rectangle). -/
def matchingBlocksAux (a b : List Char) : Nat → Nat → Nat → Nat → Nat → List FLM
  | 0, _, _, _, _ => []
  | fuel + 1, alo, ahi, blo, bhi =>
    let m := findLongestMatch a b alo ahi blo bhi
    if m.size = 0 then []
    else
      matchingBlocksAux a b fuel alo m.besti blo m.bestj ++ [m] ++
        matchingBlocksAux a b fuel (m.besti + m.size) ahi (m.bestj + m.size) bhi

/-- Total size `M` of the matching blocks of `SequenceMatcher(None, a, b)`. -/
def smMatches (a b : List Char) : Nat :=
  ((matchingBlocksAux a b (a.length + b.length + 1) 0 a.length 0 b.length).map
    (·.size)).sum

/-- `SequenceMatcher(None, a, b).ratio()` = `_calculate_ratio(M, len(a)+len(b))`. -/
def smRatio (a b : String) : ℚ :=
  let la := a.data.length
  let lb := b.data.length
  if la + lb = 0 then 1
  else (2 * (smMatches a.data b.data) : ℚ) / (la + lb)

/-! ### `ConciergeBot._score_doc` -/

/-- `QNA_MIN_SCORE = 0.55` (module constant of `qa_agent.py`). -/
def QNA_MIN_SCORE : ℚ := 55 / 100

/-- `ConciergeBot._score_doc(doc_text_norm, query_norm)`:
`min(1.0, 0.6*overlap + 0.3*seq + intent_boost)` with
`overlap = |q_tokens ∩ d_tokens| / max(1, min(|q_tokens|, |d_tokens|))`,
`seq = SequenceMatcher(None, doc, query).ratio()` and an `0.15` boost when
any query token occurs verbatim inside the document text. -/
def _score_doc (doc_text_norm query_norm : String) : ℚ :=
  if doc_text_norm = "" || query_norm = "" then 0
  else
    let q_tokens := (pySplit query_norm).dedup
    let d_tokens := (pySplit doc_text_norm).dedup
    let inter := (q_tokens.filter (fun t => t ∈ d_tokens)).length
    let overlap : ℚ := (inter : ℚ) / (max 1 (min q_tokens.length d_tokens.length) : ℚ)
    let seq := smRatio doc_text_norm query_norm
    let intent_boost : ℚ := if q_tokens.any (fun k => strIn k doc_text_norm) then 15 / 100 else 0
    min 1 (6/10 * overlap + 3/10 * seq + intent_boost)

/-- The token-overlap term of `_score_doc`
(`inter / max(1, min(len(q_tokens), len(d_tokens)))`) as a standalone
function of the two normalized strings. -/
def overlapTerm (doc_text_norm query_norm : String) : ℚ :=
  (((pySplit query_norm).dedup.filter
      (fun t => t ∈ (pySplit doc_text_norm).dedup)).length : ℚ) /
    (max 1 (min (pySplit query_norm).dedup.length (pySplit doc_text_norm).dedup.length) : ℚ)

/-- The intent-boost term of `_score_doc` (`0.15` when any query token occurs
verbatim in the document text, else `0`) as a standalone function. -/
def boostTerm (doc_text_norm query_norm : String) : ℚ :=
  if (pySplit query_norm).dedup.any (fun k => strIn k doc_text_norm) then 15 / 100 else 0

/-! ### Keyword rule engine (`TICKET_KEYWORDS`, `_is_*` predicates) -/

/-- `qa_agent.TICKET_KEYWORDS`. -/
def TICKET_KEYWORDS : List String :=
  ["leak", "leakage", "tap broken",
   "ac not working", "ac broken",
   "electricity", "power issue",
   "water issue",
   "damage",
   "not working",
   "complaint"]

/-- `ConciergeBot._is_ticket_request`: any ticket keyword occurs in the
lower-cased query. -/
def _is_ticket_request (query : String) : Bool :=
  TICKET_KEYWORDS.any (fun k => strIn k (pyLower query))

/-- `SERVICE_KEYWORDS` of `ConciergeBot._is_service_request`. -/
def SERVICE_KEYWORDS : List String :=
  ["wake up", "wake-up", "wake me",
   "spa", "massage", "book a spa",
   "housekeeping", "clean room", "room cleaning",
   "extra towel", "extra towels", "towels",
   "blanket", "pillow",
   "luggage", "bag",
   "room service", "assist me",
   "call me at", "remind me"]

/-- `ConciergeBot._is_service_request`. -/
def _is_service_request (query : String) : Bool :=
  if query = "" then false
  else SERVICE_KEYWORDS.any (fun k => strIn k (pyLower query))

/-- `ConciergeBot._is_order_query`. -/
def _is_order_query (query : String) : Bool :=
  ["order", "i want", "i need",
   "i would like", "i\x27ll have", "ill have",
   "get me", "bring me", "can i have",
   "add to my order", "place an order",
   "deliver", "delivery"].any (fun k => strIn k (pyLower query))

/-- `ConciergeBot._is_menu_query`. -/
def _is_menu_query (query : String) : Bool :=
  ["menu", "food", "drink", "beverage",
   "breakfast", "lunch", "dinner",
   "price", "cost", "what you have", "available",
   "show me", "list of", "dish", "item"].any (fun k => strIn k (pyLower query))

/-- The keyword-fallback cascade of `ask` (qa_agent.py lines 671–681): applied
only when the LLM classification is `UNKNOWN`; rule order ticket > service >
order > menu > QNA. -/
def resolveIntent (llm_intent : String) (query : String) : String :=
  if llm_intent = "UNKNOWN" then
    if _is_ticket_request query then "TICKET"
    else if _is_service_request query then "SERVICE_REQUEST"
    else if _is_order_query query then "ORDER"
    else if _is_menu_query query then "MENU"
    else "QNA"
  else llm_intent

/-! ### Data rows and menu formatting -/

/-- A `Menu_Manager` sheet row (string-valued cells, as gspread returns
them after `str(...)` coercion at the use sites). -/
structure MenuRow where
  item_id : String
  typ : String
  item : String
  price : String
  description : String
deriving Repr, DecidableEq

/-- Python `f"{s:<w}"`: left-justify, pad with blanks to width `w`. -/
def padL (s : String) (w : Nat) : String :=
  s ++ ⟨List.replicate (w - s.data.length) ' '⟩

/-- `ConciergeBot._format_menu_for_llm` (string literals copied from the
source file byte-for-byte, mojibake included). -/
def _format_menu_for_llm (menu_rows : List MenuRow) (query : String) : String :=
  if menu_rows.isEmpty then "Menu information is currently unavailable."
  else
    let q := pyLower query
    let rows := menu_rows.filter (fun r =>
      strIn "menu" q || strIn (pyLower r.item) q || strIn (pyLower r.typ) q)
    if rows.isEmpty then "That item is not available in our menu."
    else
      let header := ["üìú ILORA RETREATS ‚Äì MENU", "",
        padL "Item ID" 8 ++ " | " ++ padL "Type" 10 ++ " | " ++ padL "Item" 20 ++
          " | " ++ padL "Price" 8 ++ " | Description",
        ⟨List.replicate 70 '-'⟩]
      let body := rows.map (fun r =>
        padL r.item_id 8 ++ " | " ++ padL r.typ 10 ++ " | " ++ padL r.item 20 ++
          " | " ++ padL r.price 8 ++ " | " ++ r.description)
      String.intercalate "\n" (header ++ body)

/-! ### Order extraction (`_process_order`) -/

/-- Numeric value of a digit string (`int(...)` on a `\d+` regex group). -/
def digitVal (l : List Char) : Nat :=
  l.foldl (fun n c => n * 10 + (c.toNat - 48)) 0

/-- Match `(\d+)\s+item` anchored at the start of `q` (regex backtracking:
longest digit run first, then longest whitespace run), returning group 1. -/
def p1At (item q : List Char) : Option Nat :=
  let dmax := (q.takeWhile Char.isDigit).length
  ((List.range dmax).map (fun i => dmax - i)).findSome? (fun d =>
    let rest := q.drop d
    let wmax := (rest.takeWhile isPyWs).length
    ((List.range wmax).map (fun i => wmax - i)).findSome? (fun w =>
      if item.isPrefixOf (rest.drop w) then some (digitVal (q.take d)) else none))

/-- Match `item\s*x\s*(\d+)` anchored at the start of `q`. -/
def p2At (item q : List Char) : Option Nat :=
  if item.isPrefixOf q then
    let rest := q.drop item.length
    let wmax := (rest.takeWhile isPyWs).length
    ((List.range (wmax + 1)).map (fun i => wmax - i)).findSome? (fun w =>
      match rest.drop w with
      | 'x' :: rest2 =>
        let vmax := (rest2.takeWhile isPyWs).length
        ((List.range (vmax + 1)).map (fun i => vmax - i)).findSome? (fun v =>
          let ds := (rest2.drop v).takeWhile Char.isDigit
          if ds.isEmpty then none else some (digitVal ds))
      | _ => none)
  else none

/-- `re.search`: leftmost occurrence of the pattern in `q`. -/
def reSearch (pAt : List Char → List Char → Option Nat) (item : List Char) :
    List Char → Option Nat
  | [] => pAt item []
  | c :: t =>
    match pAt item (c :: t) with
    | some n => some n
    | none => reSearch pAt item t

/-- Remove every occurrence of `pat` from the list (Python
`str.replace(pat, "")`); the fuel (first argument, the list's length at the
call site) never runs out since every step consumes at least one character. -/
def removeAllAux (pat : List Char) : Nat → List Char → List Char
  | _, [] => []
  | 0, l => l
  | fuel + 1, c :: t =>
    if pat ≠ [] ∧ pat.isPrefixOf (c :: t) then
      removeAllAux pat fuel ((c :: t).drop pat.length)
    else c :: removeAllAux pat fuel t

/-- Python `str.replace(pat, "")` on character lists. -/
def removeAll (pat l : List Char) : List Char := removeAllAux pat l.length l

/-- Python `float(...)` on a cleaned price cell: optional sign, digits with an
optional decimal point.  `none` models `ValueError`. -/
def parsePyFloat (s : String) : Option ℚ :=
  let t := pyStrip s
  let l := t.data
  let (sign, l) : ℚ × List Char :=
    match l with
    | '-' :: r => (-1, r)
    | '+' :: r => (1, r)
    | r => (1, r)
  let intPart := l.takeWhile Char.isDigit
  let rest := l.dropWhile Char.isDigit
  match rest with
  | [] => if intPart.isEmpty then none else some (sign * digitVal intPart)
  | '.' :: fr =>
    let fracPart := fr.takeWhile Char.isDigit
    if ¬ (fr.dropWhile Char.isDigit).isEmpty then none
    else if intPart.isEmpty ∧ fracPart.isEmpty then none
    else some (sign * ((digitVal intPart : ℚ) +
      (digitVal fracPart : ℚ) / (10 : ℚ) ^ fracPart.length))
  | _ => none

/-- `str(r.get("Price","")).replace("‚Çπ","").replace(",","").strip()` followed
by `float(...)` with `except: price = 0.0` (`_process_order`). -/
def parsePriceSafe (price : String) : ℚ :=
  let cleaned : List Char := removeAll [','] (removeAll "‚Çπ".data price.data)
  (parsePyFloat ⟨cleaned⟩).getD 0

/-- `defaultdict(int)` update `ordered_items[key] += qty` (dict insertion
order preserved, new keys appended). -/
def bumpQty (key : String) (qty : Nat) : List (String × Nat) → List (String × Nat)
  | [] => [(key, qty)]
  | (k, v) :: t => if k = key then (k, v + qty) :: t else (k, v) :: bumpQty key qty t

/-- `ConciergeBot._process_order`: extract `{item: quantity}` pairs from the
query against the menu and total the prices.  Returns `("", 0.0)` when
nothing matches. -/
def _process_order (menu_rows : List MenuRow) (query : String) : String × ℚ :=
  let q := (pyLower query).data
  let step := fun (acc : List (String × Nat) × ℚ) (r : MenuRow) =>
    let item_name := (pyLower r.item).data
    if item_name.isEmpty then acc
    else
      let qty0 := match reSearch p1At item_name q with
        | some n => n
        | none => (reSearch p2At item_name q).getD 0
      let qty := if qty0 = 0 && listSub item_name q then 1 else qty0
      if qty = 0 then acc
      else (bumpQty r.item qty acc.1, acc.2 + parsePriceSafe r.price * qty)
  let res := menu_rows.foldl step ([], 0)
  if res.1.isEmpty then ("", 0)
  else
    (String.intercalate ", " (res.1.map (fun p =>
      if 1 < p.2 then toString p.2 ++ " " ++ p.1 else p.1)), res.2)

/-! ### Sessions (`_extract_session_object` and friends)

Python dicts with string values are modelled as insertion-ordered
association lists; `dict.get` is lookup of the first (unique) key. -/

/-- An open string-keyed, string-valued dict (guest profile / sheet row). -/
abbrev PyDict := List (String × String)

/-- `d.get(k)` (`None` when absent). -/
def pyGet (d : PyDict) (k : String) : Option String :=
  d.lookup k

/-- `d.get(k) or ...` left operand: `None`/empty string are falsy. -/
def pyGetTruthy (d : PyDict) (k : String) : Option String :=
  match d.lookup k with
  | some v => if v = "" then none else some v
  | none => none

/-- The session object shapes `ask` can receive (qa_agent.py duck-typing):
a wrapper dict carrying a `"frontend"`/`"normalized"` key, or a plain
guest-record dict. -/
inductive SessObj where
  /-- a dict that has a `"frontend"` or `"normalized"` key; the field is the
  value of its `"normalized"` key when present -/
  | wrapper (normalized : Option PyDict)
  /-- a plain guest-record dict -/
  | plain (p : PyDict)
deriving Repr, DecidableEq

/-- Python truthiness of a session object (a dict is falsy iff empty; a
wrapper dict always holds at least its `"frontend"`/`"normalized"` key). -/
def SessObj.truthy : SessObj → Bool
  | .wrapper _ => true
  | .plain p => !p.isEmpty

/-- `guest = sess_obj.get("normalized", sess_obj)` followed by
`guest.get(k, default)`: lookups on the wrapper dict itself miss the profile
keys. -/
def SessObj.guestGet (s : SessObj) (k : String) : Option String :=
  match s with
  | .wrapper (some p) => pyGet p k
  | .wrapper none => none
  | .plain p => pyGet p k

/-- The `user_session` argument of `ask`: either a wrapper dict or a dict
keyed by session keys. -/
inductive UserSession where
  | wrapper (normalized : Option PyDict)
  | table (entries : List (String × SessObj))
deriving Repr, DecidableEq

/-- `ConciergeBot._extract_session_object`. -/
def _extract_session_object (user_session : Option UserSession)
    (session_key : Option String) : Option String × Option SessObj :=
  match user_session with
  | none => (none, none)
  | some (.wrapper norm) =>
    -- `norm = user_session.get("normalized", {}) or {}`
    let normD : PyDict := norm.getD []
    -- `key = norm.get("email") or norm.get("client_id") or session_key`
    let key := (pyGetTruthy normD "email").orElse (fun _ =>
      (pyGetTruthy normD "client_id").orElse (fun _ => session_key))
    (key, some (.wrapper norm))
  | some (.table entries) =>
    match session_key with
    | some k =>
      match entries.lookup k with
      | some v => (some k, some v)
      | none => (none, none)
    | none => (none, none)

/-- Python truthiness of the resolved `sess_key` (`if sess_key:`). -/
def keyTruthy : Option String → Bool
  | some k => k ≠ ""
  | none => false

/-! ### QnA rows, refresh filtering and retrieval -/

/-- A raw `QnA_Manager` sheet row (the cells `_refresh_sheets` reads). -/
structure RawQnaRow where
  qna_id : String
  question : String
  answer : String
  status : String
deriving Repr, DecidableEq

/-- A normalized QnA cache entry: the surviving row with its derived
`page_content` and `question_norm` fields (`_refresh_sheets`). -/
structure QnaRow where
  qna_id : String
  question : String
  answer : String
  page_content : String
  question_norm : String
deriving Repr, DecidableEq

/-- The QnA part of `ConciergeBot._refresh_sheets`: keep rows whose
`Status` strips/lowers to `"active"` and whose stripped question and answer
are non-empty; derive `page_content = "Q: {q}\nA: {a}"` and
`question_norm = _normalize_text(q)`. -/
def refreshQna (rows : List RawQnaRow) : List QnaRow :=
  rows.filterMap (fun r =>
    if pyLower (pyStrip r.status) ≠ "active" then none
    else
      let question := pyStrip r.question
      let answer := pyStrip r.answer
      if question = "" || answer = "" then none
      else some ⟨r.qna_id, question, answer,
        "Q: " ++ question ++ "\nA: " ++ answer, _normalize_text question⟩)

/-- One element of the `scored` list of `_retrieve_from_sheets`:
`(self._score_doc(row["question_norm"], nq), row["page_content"], row)`. -/
abbrev Scored := ℚ × String × QnaRow

/-- Stable insert for descending order: `x` goes before the first element
whose score is `≤` its own.  Together with `sortDesc` this is exactly the
behaviour of CPython's stable `list.sort(key=lambda x: x[0], reverse=True)`. -/
def insertDesc (x : Scored) : List Scored → List Scored
  | [] => [x]
  | y :: ys => if y.1 ≤ x.1 then x :: y :: ys else y :: insertDesc x ys

/-- Stable descending sort by score (model of
`scored.sort(key=lambda x: x[0], reverse=True)`). -/
def sortDesc : List Scored → List Scored
  | [] => []
  | x :: xs => insertDesc x (sortDesc xs)

/-- A retrieval result `{"page_content": t, "score": s, "metadata": r}`. -/
structure RetrievedDoc where
  page_content : String
  score : ℚ
  metadata : QnaRow
deriving Repr, DecidableEq

/-- `ConciergeBot._retrieve_from_sheets(query, k)` over the current QnA
cache: score every row, keep strictly positive scores, stable-sort
descending, return the top `k`. -/
def _retrieve_from_sheets (qna_rows : List QnaRow) (query : String) (k : Nat) :
    List RetrievedDoc :=
  let nq := _normalize_text query
  let scored : List Scored :=
    qna_rows.map (fun row => (_score_doc row.question_norm nq, row.page_content, row))
  let scored := scored.filter (fun s => 0 < s.1)
  ((sortDesc scored).take k).map (fun s => ⟨s.2.1, s.1, s.2.2⟩)

/-! ### Ticket dedup guard (`_raise_ticket`) -/

/-- A `ticket_management` sheet row as `_raise_ticket` reads/writes it. -/
structure TicketRow where
  ticket_id : String
  email : String
  name : String
  room_no : String
  request : String
  category : String
  assigned_to : String
  status : String
  created_at : String
  resolved_at : String
  notes : String
deriving Repr, DecidableEq

/-- The duplicate test of `_raise_ticket`: same `Room No`, same
stripped-and-lowercased `Request`, status `Open` or `In Progress`. -/
def dupMatch (room_no request_norm : String) (row : TicketRow) : Bool :=
  row.room_no = room_no && pyLower (pyStrip row.request) = request_norm &&
    (row.status = "Open" || row.status = "In Progress")

/-- `ConciergeBot._raise_ticket`.  `existing_tickets` is the
`get_all_records("ticket_management")` outcome (`.error` = exception, which
the guard swallows); `new_id`/`created_at` stand for the fresh
`TCK-{uuid4...}` and `datetime.utcnow().isoformat()`.  Returns the ticket id
given back to the caller and the row appended to the sheet, if any.
Normalization here is `request_text.strip().lower()` only. -/
def _raise_ticket (guest : PyDict) (request_text category : String)
    (existing_tickets : Except Unit (List TicketRow))
    (new_id created_at : String) : String × Option TicketRow :=
  let room_no := (pyGet guest "room_alloted").getD "N/A"
  let request_norm := pyLower (pyStrip request_text)
  let dup : Option TicketRow :=
    match existing_tickets with
    | .error _ => none
    | .ok rows => (rows.drop (rows.length - 15)).find? (dupMatch room_no request_norm)
  match dup with
  | some row => (row.ticket_id, none)
  | none =>
    (new_id, some
      { ticket_id := new_id
        email := ((pyGetTruthy guest "email").orElse (fun _ => pyGetTruthy guest "Email")).getD "N/A"
        name := ((pyGetTruthy guest "name").orElse (fun _ => pyGetTruthy guest "Name")).getD "Guest"
        room_no := room_no
        request := request_text
        category := category
        assigned_to := category
        status := "Open"
        created_at := created_at
        resolved_at := ""
        notes := "" })

/-! ### `main_final.get_latest_session` -/

/-- A `USER_SESSIONS` value: its `last_login` timestamp, already put through
`datetime.fromisoformat` (`none` = key missing / falsy / unparseable), plus
an opaque payload identifying the record. -/
structure SessRec where
  last_login : Option Int
  payload : String
deriving Repr, DecidableEq

/-- One iteration of the `for key, sess in user_sessions.items()` loop of
`get_latest_session`: skip unparseable timestamps, track the strict maximum
(`ts > latest_ts`, so the first entry attaining the maximum is kept). -/
def glsStep (acc : Option String × Option Int) (kv : String × SessRec) :
    Option String × Option Int :=
  match kv.2.last_login with
  | none => acc
  | some ts =>
    match acc.2 with
    | none => (some kv.1, some ts)
    | some m => if m < ts then (some kv.1, some ts) else acc

/-- `main_final.get_latest_session`: pick the session with the newest
parseable `last_login` (strict `>`, so the first entry attaining the
maximum wins); if none parses, fall back to the last-inserted key; a falsy
(empty) chosen key yields `(None, None)`. -/
def get_latest_session (user_sessions : List (String × SessRec)) :
    Option String × Option SessRec :=
  if user_sessions.isEmpty then (none, none)
  else
    let best := user_sessions.foldl glsStep (none, none)
    let latest_key := match best.1 with
      | some k => some k
      | none => user_sessions.getLast?.map (·.1)
    match latest_key with
    | some k => if k ≠ "" then (some k, user_sessions.lookup k) else (none, none)
    | none => (none, none)

/-! ### Chat history, prompt composition -/

/-- One chat-history message.  (The `meta={"ts": ...}` timestamp dict is
dropped: no behaviour of the core reads it back.) -/
structure ChatMsg where
  role : String
  content : String
deriving Repr, DecidableEq

/-- Python `str.title()` restricted to what the code feeds it (role names):
upper-case every alphabetic character that follows a non-alphabetic one,
lower-case the other alphabetic characters. -/
def pyTitle (s : String) : String :=
  ⟨(s.data.foldl (fun (acc : List Char × Bool) c =>
      let c' := if c.isAlpha then (if acc.2 then c.toLower else c.toUpper) else c
      (c' :: acc.1, c.isAlpha)) ([], false)).1.reverse⟩

/-- `ConciergeBot._format_conversation_for_prompt` (with
`self.chat_history_limit` passed explicitly). -/
def _format_conversation_for_prompt (limit : Nat) (history : List ChatMsg) : String :=
  if history.isEmpty then ""
  else String.intercalate "\n"
    ((history.drop (history.length - limit)).map (fun m => pyTitle m.role ++ ": " ++ m.content))

/-- `ConciergeBot._format_user_session_summary`.  `norm = session_obj.get
("normalized") or session_obj`; the model assumes a plain session record
does not itself carry a `"normalized"` key. -/
def _format_user_session_summary (session_obj : SessObj) : String :=
  let norm : PyDict :=
    match session_obj with
    | .wrapper (some p) => if p.isEmpty then [] else p
    | .wrapper none => []
    | .plain p => p
  let entry := fun (k label : String) =>
    match pyGet norm k with
    | some v => [label ++ ": " ++ v]
    | none => []
  let stay :=
    if (pyGet norm "check_in").isSome || (pyGet norm "check_out").isSome then
      ["Stay: " ++ (pyGet norm "check_in").getD "" ++ " ‚Üí " ++ (pyGet norm "check_out").getD ""]
    else []
  let parts :=
    entry "client_id" "Client ID" ++ entry "name" "Name" ++ entry "email" "Email" ++
    entry "booking_id" "Booking ID" ++ entry "workflow_stage" "Workflow Stage" ++
    entry "room_alloted" "Room" ++ stay ++ entry "id_link" "ID Proof" ++
    entry "pending" "Pending"
  String.intercalate "\n" parts

/-- `ConciergeBot._build_prompt` (template literals copied from the source;
`agent_name` models the `data/agents.json` lookup, default `"AI Assistant"`). -/
def _build_prompt (agent_name : String) (dos_donts campaigns : List PyDict)
    (hotel_data query user_profile_text recent_conversation : String) : String :=
  let rules_text :=
    if dos_donts.isEmpty then ""
    else "\n\nüìã **Important Communication Rules:**\n" ++
      String.join (dos_donts.map (fun e =>
        let d := pyStrip ((pyGet e "do").getD "")
        let dn := pyStrip ((pyGet e "dont").getD "")
        (if d ≠ "" then "- ‚úÖ Do: " ++ d ++ "\n" else "") ++
        (if dn ≠ "" then "- ‚ùå Don\x27t: " ++ dn ++ "\n" else "")))
  let campaigns_text :=
    if campaigns.isEmpty then ""
    else "\n\nüì£ **Active Campaigns / Promos (summary):**\n" ++
      String.join ((campaigns.take 5).map (fun c =>
        let title := (((pyGetTruthy c "Name").orElse (fun _ => pyGetTruthy c "Title")).orElse
          (fun _ => pyGetTruthy c "Campaign")).getD ""
        let desc := (((pyGetTruthy c "Description").orElse (fun _ => pyGetTruthy c "Desc")).orElse
          (fun _ => pyGetTruthy c "Details")).getD ""
        if title ≠ "" || desc ≠ "" then
          "- " ++ title ++ " " ++ (if desc ≠ "" then "- " ++ desc else "") ++ "\n"
        else ""))
  let recent_conv_text :=
    if recent_conversation ≠ "" then
      "\n\nRecent Conversation (most recent messages):\n" ++ recent_conversation
    else ""
  let user_profile_block :=
    if user_profile_text ≠ "" then
      "\n\nGuest Profile (from session):\n" ++ user_profile_text
    else ""
  "You are an AI agent named " ++ agent_name ++ " for the user " ++ user_profile_block ++
  ", a knowledgeable, polite, and concise concierge assistant at *ILORA RETREATS*, " ++
  "ILORA RETREATS have only LUXURY TENTS in room types and have 14 rooms in total." ++
  "The following is the earlier chat " ++ recent_conv_text ++ " you need to reply accordingly" ++
  "a premium hotel known for elegant accommodations, gourmet dining, rejuvenating spa treatments, " ++
  "Ilora Retreats is a luxury safari camp in Kenya‚Äôs Masai Mara, near Olkiombo Airstrip, offering 14 fully equipped tents with en‚Äësuite bathrooms, private verandas, and accessible facilities. Guests can enjoy a pool, spa, gym, yoga, bush dinners, and stargazing, with activities like game drives, walking safaris, hot air balloon rides, and Maasai cultural experiences. Full-board rates start around USD‚ÄØ500‚Äì650 per night, with premium activities and beverages extra. The retreat emphasizes sustainability, blending nature with comfort, creating an immersive safari experience." ++
  "a fully-equipped gym, pool access, 24x7 room service, meeting spaces, and personalized hospitality.\n\n" ++
  "Answer guest queries using the Hotel Data and the Menu given below.\n" ++
  "You MUST answer strictly using the Hotel Data provided.\n" ++
  "If the answer is not present, respond exactly with:\n" ++
  "\"I‚Äôm sorry, I don‚Äôt have that information at the moment.\"\n" ++
  "Do NOT use general knowledge.\n" ++
  "Do NOT invent facts.\n\n" ++
  "but remember **DO NOT MAKE FALSE FACTS**. If unsure, ask clarifying questions. DO NOT GIVE PHONE NUMBERS unless very necessary.\n\n" ++
  "Agent Name: " ++ agent_name ++ "\n\n" ++
  "Hotel Data (most relevant excerpts):\n" ++ hotel_data ++ "\n\n" ++
  user_profile_block ++ "\n\n" ++
  recent_conv_text ++ "\n\n" ++
  "Guest Query: " ++ query ++ "\n" ++
  rules_text ++ "\n" ++
  campaigns_text ++ "\n" ++
  "Rules:\n" ++
  "1. Do NOT hallucinate or provide inaccurate information.\n" ++
  "2. 2. If the answer is not available, respond exactly:\n" ++
  "\"I‚Äôm sorry, I don‚Äôt have that information at the moment.\"\n" ++
  "Do NOT raise tickets for QnA.\n" ++
  "3. Authority boundaries must be respected: maintenance, billing, or managerial approvals are required for changes." ++
  "\n\nProvide a helpful, accurate, and concise response based on the data and rules above" ++
  "\n\nSTRICT MENU RULES:\n" ++
  "- Answer menu questions ONLY using the Menu data provided.\n" ++
  "- If an item is not explicitly listed, say: \x27That item is not available.\x27\n" ++
  "- Do NOT guess prices or items.\n" ++
  "- Do NOT suggest alternatives unless asked.\n"

/-! ### Bot state, collaborator oracle, and the orchestrator `ask` -/

/-- A langchain `Document` returned by the FAISS fallback retriever
(`page_content` plus question/answer metadata); crucially it is *not*
subscriptable with `["score"]`. -/
structure VectorDoc where
  page_content : String
  question : String
  answer : String
deriving Repr, DecidableEq

/-- The mutable `ConciergeBot` state that `ask` reads or writes. -/
structure BotState where
  use_sheet : Bool
  /-- `getattr(self, "retriever", None)` is non-`None` (only happens when
  sheet loading failed at init and the FAISS store was built) -/
  hasRetriever : Bool
  qna_rows : List QnaRow
  menu_rows : List MenuRow
  dos_donts : List PyDict
  campaigns : List PyDict
  chat_histories : List (String × List ChatMsg)
  chat_history_limit : Nat := 10
  chat_history_persist : Bool := true
  chat_save_every : Nat := 5
  retriever_k : Nat := 5
  agent_name : String := "AI Assistant"
deriving Repr, DecidableEq

/-- One bulk fetch of the four sheets (`_refresh_sheets` body). -/
structure SheetsData where
  qna : List RawQnaRow
  menu : List MenuRow
  dos : List PyDict
  campaigns : List PyDict
deriving Repr, DecidableEq

/-- An `"items"` entry of the LLM intent payload, assumed well-formed
(`{"name": str, "quantity": int}`; malformed payloads would raise inside the
ORDER branch and are not modelled). -/
structure OrderItem where
  name : String
  quantity : Nat
deriving Repr, DecidableEq

instance instDecEqExcept [DecidableEq ε] [DecidableEq α] : DecidableEq (Except ε α) :=
  fun a b =>
    match a, b with
    | .error e, .error f =>
      if h : e = f then isTrue (by rw [h]) else isFalse (fun hh => h (by cases hh; rfl))
    | .ok x, .ok y =>
      if h : x = y then isTrue (by rw [h]) else isFalse (fun hh => h (by cases hh; rfl))
    | .error _, .ok _ => isFalse (fun hh => Except.noConfusion hh)
    | .ok _, .error _ => isFalse (fun hh => Except.noConfusion hh)

/-- Outcomes of all external collaborators consulted during one `ask` call. -/
structure Oracle where
  /-- `classify_intent_with_llm(query).get("intent")` (that method already
  maps its own failures to `"UNKNOWN"`) -/
  intent : Option String
  /-- `intent_data.get("items", [])` -/
  items : Option (List OrderItem) := none
  /-- `now - self.sheet_last_refresh >= self.sheet_refresh_interval` -/
  refreshDue : Bool := true
  /-- the four `get_all_records` fetches of `_refresh_sheets` (`.error` =
  exception; mid-sequence partial updates are collapsed to no update) -/
  sheetsFetch : Except Unit SheetsData := .error ()
  /-- `_run_with_timeout(_retrieve_from_sheets, ...)` hit its deadline -/
  retrieveTimeout : Bool := false
  /-- `self.retriever.get_relevant_documents(q)` under timeout -/
  vectorDocs : Except Unit (List VectorDoc) := .error ()
  /-- the Gemini `generate_content` call of the QNA branch
  (`.error e` = exception with `str(e) = e`, including timeouts) -/
  llmReply : Except String String := .error ""
  /-- `_save_room_service_order` succeeded -/
  orderSaveOk : Bool := true
deriving Repr, DecidableEq

/-- `ConciergeBot._refresh_sheets` (time gate and fetch outcome supplied by
the oracle). -/
def _refresh_sheets (st : BotState) (due : Bool) (fetch : Except Unit SheetsData) :
    Except Unit BotState :=
  if !due then .ok st
  else
    match fetch with
    | .error _ => .error ()
    | .ok d => .ok { st with
        qna_rows := refreshQna d.qna
        menu_rows := d.menu
        dos_donts := d.dos
        campaigns := d.campaigns }

/-- Observable side effects of one `ask` call on external collaborators. -/
inductive Effect where
  /-- `append_row_to_sheet("ticket_management", ...)` -/
  | ticketWrite (row : TicketRow)
  /-- `_save_room_service_order` write attempt -/
  | orderWriteAttempt (email name room_no orders : String) (pending_balance : ℚ)
  /-- `_increment_qna_usage` attempt (failures swallowed inside) -/
  | usageIncrementAttempt (qna_id : String)
  /-- direct `model.generate_content(prompt)` (soft-fallback path, no timeout) -/
  | llmCallNoTimeout (prompt : String)
  /-- `_run_with_timeout(gemini_call, timeout=self.llm_timeout)` -/
  | llmCallWithTimeout (prompt : String)
  /-- chat-history file write attempt (failures swallowed) -/
  | persistAttempt (sess_key : String) (messages : List ChatMsg)
deriving Repr, DecidableEq

/-- `dict[k] = v` preserving insertion order (Python dict assignment). -/
def updAssoc (k : String) (v : α) : List (String × α) → List (String × α)
  | [] => [(k, v)]
  | (k', v') :: t => if k' = k then (k, v) :: t else (k', v') :: updAssoc k v t

/-- `get_recent_history`: last `chat_history_limit` messages of the session. -/
def get_recent_history (st : BotState) (session_key : String) : List ChatMsg :=
  let h := (st.chat_histories.lookup session_key).getD []
  h.drop (h.length - st.chat_history_limit)

/-- Append the user/assistant pair and fire the periodic persistence of the
tail of `ask` (qa_agent.py lines 823–835); no-op when `sess_key` is falsy. -/
def appendHistory : BotState → Option String → String → String → BotState × List Effect
  | st, some k, query, answer =>
    if k = "" then (st, [])
    else
      let h := (st.chat_histories.lookup k).getD []
      let h' := h ++ [⟨"user", query⟩, ⟨"assistant", answer⟩]
      let st' := { st with chat_histories := updAssoc k h' st.chat_histories }
      if st.chat_history_persist && h'.length % st.chat_save_every = 0 then
        (st', [.persistAttempt k h'])
      else (st', [])
  | st, none, _, _ => (st, [])

/-- Fixed acknowledgment of the `SERVICE_REQUEST`/`TICKET` branch. -/
def ACK_STRING : String := "‚úÖ I‚Äôve noted your request.\nOur team will assist you shortly."

/-- The closed-world fallback sentence of the QNA branch. -/
def SORRY_STRING : String := "I‚Äôm sorry, I don‚Äôt have that information at the moment."

/-- Quota / rate-limit user-facing message. -/
def QUOTA_STRING : String :=
  "I\x27m currently handling a lot of requests and have temporarily reached my response limit. Please try again in a minute"

/-- Generic LLM-failure user-facing message. -/
def GENERIC_FAIL_STRING : String := "I\x27m sorry, I couldn\x27t process that right now."

/-- Reply when no order item resolves. -/
def STAFF_ASSIST_STRING : String :=
  "This request needs staff assistance. I‚Äôve raised a service ticket for you."

/-- Reply when persisting the order fails. -/
def ORDER_SAVE_FAIL_STRING : String :=
  "I couldn\x27t save your order at the moment. Please try again shortly."

/-- Python truthiness of the resolved session object. -/
def sessObjTruthy : Option SessObj → Bool
  | some s => s.truthy
  | none => false

/-- Reply computation of the `ORDER` branch after the refresh (qa_agent.py
lines 695–736): item/total extraction (LLM-supplied items or
`_process_order` fallback), order persistence attempt, confirmation or
failure message.  Price cells are assumed parseable (an unparseable one
would also raise in the source). -/
def orderReply (menu_rows : List MenuRow) (o : Oracle) (query : String) (so : SessObj) :
    String × List Effect :=
  let items := o.items.getD []
  let res :=
    if items.isEmpty then _process_order menu_rows query
    else
      let pairs := items.map (fun it =>
        let menu_row := menu_rows.find? (fun r => pyLower r.item = pyLower it.name)
        let price : ℚ := match menu_row with
          | some r => (parsePyFloat ⟨removeAll [','] (removeAll "‚Çπ".data r.price.data)⟩).getD 0
          | none => 0
        ((if 1 < it.quantity then toString it.quantity ++ " " ++ it.name else it.name),
          price * it.quantity))
      (String.intercalate ", " (pairs.map (·.1)), (pairs.map (·.2)).sum)
  let orders := res.1
  let total := res.2
  if orders = "" then (STAFF_ASSIST_STRING, [])
  else
    let email := (so.guestGet "email").getD "N/A"
    let name := (so.guestGet "name").getD "Guest"
    let room := (so.guestGet "room_alloted").getD "N/A"
    let eff := [Effect.orderWriteAttempt email name room orders total]
    if o.orderSaveOk then
      ("‚úÖ **Order Confirmed!**\n\nüßæ Items: " ++ orders ++
        "\nüí∞ Total Amount: ‚Çπ" ++ toString total ++ "\nüìç Room No: " ++ room ++
        "\n\nYour order will be delivered shortly. Thank you!", eff)
    else (ORDER_SAVE_FAIL_STRING, eff)

/-- The `ORDER` branch of `ask` (qa_agent.py lines 693–736), split as
unguarded refresh then the pure reply computation `orderReply` above. -/
def orderBranch (st0 : BotState) (o : Oracle) (query : String) (so : SessObj) :
    Except Unit (Option String × BotState × List Effect) :=
  match _refresh_sheets st0 o.refreshDue o.sheetsFetch with
  | .error _ => .error ()
  | .ok st =>
    let rep := orderReply st.menu_rows o query so
    .ok (some rep.1, st, rep.2)

/-- Sheet-side retrieval of the `QNA` branch (qa_agent.py lines 750–757):
refresh-then-retrieve under the timeout wrapper, failures caught and turned
into an empty result. -/
def qnaRetrieve (st0 : BotState) (o : Oracle) (query : String) :
    BotState × List RetrievedDoc :=
  if st0.use_sheet then
    match _refresh_sheets st0 o.refreshDue o.sheetsFetch with
    | .error _ => (st0, ([] : List RetrievedDoc))
    | .ok st1 =>
      if o.retrieveTimeout then (st1, [])
      else (st1, _retrieve_from_sheets st1.qna_rows query st1.retriever_k)
  else (st0, [])

/-- Answer/effect computation of the `QNA` branch over the sheet-retrieved
docs (qa_agent.py lines 766–821): fixed fallback sentence when nothing
retrieved; below `QNA_MIN_SCORE` a soft-fallback LLM call without timeout;
at/above it a usage-count increment and an LLM call under timeout, with
quota-aware error messages. -/
def qnaCore (st : BotState) (o : Oracle) (query : String)
    (sess_key : Option String) (sess_obj : Option SessObj)
    (sheetDocs : List RetrievedDoc) : String × List Effect :=
  match sheetDocs.head? with
  | none => (SORRY_STRING, [])
  | some bm =>
    let profile := match sess_obj with
      | some so => if so.truthy then _format_user_session_summary so else ""
      | none => ""
    let recent :=
      if keyTruthy sess_key then
        _format_conversation_for_prompt st.chat_history_limit
          (get_recent_history st (sess_key.getD ""))
      else ""
    let prompt := _build_prompt st.agent_name st.dos_donts st.campaigns
      bm.page_content query profile recent
    if bm.score < QNA_MIN_SCORE then
      let answer := match o.llmReply with
        | .ok t => t
        | .error _ => SORRY_STRING
      (answer, [Effect.llmCallNoTimeout prompt])
    else
      let answer := match o.llmReply with
        | .ok t => t
        | .error e =>
          let err := pyLower e
          if strIn "quota" err || strIn "429" err then QUOTA_STRING
          else GENERIC_FAIL_STRING
      (answer, [Effect.usageIncrementAttempt bm.metadata.qna_id,
        Effect.llmCallWithTimeout prompt])

/-- The `QNA` branch of `ask` (qa_agent.py lines 748–837): sheet retrieval,
FAISS fallback, answer computation, then the chat-history append/persist
epilogue.  The FAISS fallback returns langchain `Document`s, and
`best_match["score"]` on one raises `TypeError` (unsubscriptable), which no
handler catches — hence `.error` on that path. -/
def qnaBranch (st0 : BotState) (o : Oracle) (query : String)
    (sess_key : Option String) (sess_obj : Option SessObj) :
    Except Unit (Option String × BotState × List Effect) :=
  let refr := qnaRetrieve st0 o query
  let st := refr.1
  let sheetDocs := refr.2
  let vectorFirst : Option VectorDoc :=
    if sheetDocs.isEmpty && st.hasRetriever then
      match o.vectorDocs with
      | .ok docs => docs.head?
      | .error _ => none
    else none
  match vectorFirst with
  | some _ => .error ()
  | none =>
    let core := qnaCore st o query sess_key sess_obj sheetDocs
    let app := appendHistory st sess_key query core.1
    .ok (some core.1, app.1, core.2 ++ app.2)

/-- The `if/elif` chain of `ask` after session resolution and intent
classification (qa_agent.py lines 686–837). -/
def askDispatch (st : BotState) (o : Oracle) (query : String)
    (sess_key : Option String) (sess_obj : Option SessObj) (intent : String) :
    Except Unit (Option String × BotState × List Effect) :=
  if intent = "MENU" then
    let st' := match _refresh_sheets st o.refreshDue o.sheetsFetch with
      | .ok s => s
      | .error _ => st
    .ok (some (_format_menu_for_llm st'.menu_rows query), st', [])
  else if intent = "ORDER" && sessObjTruthy sess_obj then
    match sess_obj with
    | some so => orderBranch st o query so
    | none => .ok (none, st, [])
  else if intent = "SERVICE_REQUEST" || intent = "TICKET" then
    .ok (some ACK_STRING, st, [])
  else if intent = "QNA" then
    qnaBranch st o query sess_key sess_obj
  else
    .ok (none, st, [])

/-- `ConciergeBot.ask`: resolve the session, classify (LLM result via the
oracle, keyword fallback when `UNKNOWN`), branch, and — in the QNA branch
only — append to chat history.  `.error` models an exception escaping to
the caller; `.ok (none, ...)` models Python's implicit `return None` when no
branch matches. -/
def ask (st : BotState) (o : Oracle) (query : String)
    (user_session : Option UserSession) (session_key : Option String) :
    Except Unit (Option String × BotState × List Effect) :=
  let sk := _extract_session_object user_session session_key
  askDispatch st o query sk.1 sk.2 (resolveIntent ((o.intent).getD "UNKNOWN") query)

/-! ## Claim theorems -/

/-- A concrete freshly-initialised bot state used by concrete runs. -/
def st0 : BotState :=
  { use_sheet := true, hasRetriever := false, qna_rows := [], menu_rows := [],
    dos_donts := [], campaigns := [], chat_histories := [] }

/-- Unfolding step: `ask` is session resolution + classification + dispatch. -/
theorem ask_eq (st : BotState) (o : Oracle) (query : String)
    (us : Option UserSession) (sk : Option String) :
    ask st o query us sk = askDispatch st o query
      (_extract_session_object us sk).1 (_extract_session_object us sk).2
      (resolveIntent ((o.intent).getD "UNKNOWN") query) := rfl

/-- Helper: the branch selected by `ask` for a resolved intent. -/
theorem ask_service_ticket (st : BotState) (o : Oracle) (query : String)
    (us : Option UserSession) (sk : Option String)
    (h : resolveIntent ((o.intent).getD "UNKNOWN") query = "SERVICE_REQUEST" ∨
         resolveIntent ((o.intent).getD "UNKNOWN") query = "TICKET") :
    ask st o query us sk = .ok (some ACK_STRING, st, []) := by
  rw [ask_eq]
  rcases h with h | h <;> rw [h] <;> rfl

/-- C1 (counterexample): a message the LLM classifies as `TICKET`, with a
resolvable guest session, gets the fixed acknowledgment back while `ask`
performs no external-sink write at all (empty effect trace, state
unchanged): `_raise_ticket` — the Dedup Guard and ticket creation — is never
invoked by `ask`, contradicting the claimed "runs the Dedup Guard … creates
a new ticket via the external sink". -/
theorem C1_counterexample :
    ask st0 { intent := some "TICKET" } "the ac is not working"
      (some (.table [("guest@x.com", .plain [("email", "guest@x.com"), ("room_alloted", "12")])]))
      (some "guest@x.com")
      = .ok (some ACK_STRING, st0, []) := by
  rfl

/-- C1 (amended): for every message resolving to `SERVICE_REQUEST` or
`TICKET`, `ask` returns the fixed acknowledgment string unconditionally,
leaving the state untouched and performing no external call — in
particular it neither runs the Dedup Guard nor creates a ticket (the
`_raise_ticket` helper that implements both is dead code from `ask`'s
perspective). -/
theorem C1_amended (st : BotState) (o : Oracle) (query : String)
    (us : Option UserSession) (sk : Option String)
    (h : resolveIntent ((o.intent).getD "UNKNOWN") query = "SERVICE_REQUEST" ∨
         resolveIntent ((o.intent).getD "UNKNOWN") query = "TICKET") :
    ask st o query us sk = .ok (some ACK_STRING, st, []) ∧
    ∀ row : TicketRow, (Effect.ticketWrite row) ∉ ([] : List Effect) := by
  exact ⟨ask_service_ticket st o query us sk h, fun _ h' => (List.not_mem_nil _ h')⟩

/-- C1 (witness): concrete `SERVICE_REQUEST` run through the amended
theorem. -/
theorem C1_amended_witness :
    ask st0 { intent := some "SERVICE_REQUEST" } "need extra towels" none none
      = .ok (some ACK_STRING, st0, []) ∧
    ∀ row : TicketRow, (Effect.ticketWrite row) ∉ ([] : List Effect) :=
  C1_amended st0 { intent := some "SERVICE_REQUEST" } "need extra towels" none none
    (Or.inl (by decide))

/-- C2 (counterexample): an `ORDER`-classified message with a resolvable,
truthy session hits the unguarded `self._refresh_sheets()` call (qa_agent.py
line 694); a sheet-fetch failure there escapes `ask` as an exception,
contradicting "ask() never lets an exception escape to its caller". -/
theorem C2_counterexample :
    ask st0 { intent := some "ORDER", refreshDue := true, sheetsFetch := .error () }
      "2 coffee"
      (some (.table [("guest@x.com", .plain [("email", "guest@x.com")])]))
      (some "guest@x.com")
      = .error () := by
  rfl

/-- A successful `_refresh_sheets` never touches the retriever flag or the
chat-history state. -/
theorem refresh_preserves (st : BotState) (due : Bool)
    (fetch : Except Unit SheetsData) (st1 : BotState)
    (h : _refresh_sheets st due fetch = .ok st1) :
    st1.hasRetriever = st.hasRetriever ∧ st1.chat_histories = st.chat_histories ∧
    st1.chat_history_persist = st.chat_history_persist ∧
    st1.chat_save_every = st.chat_save_every ∧
    st1.chat_history_limit = st.chat_history_limit := by
  unfold _refresh_sheets at h
  cases due with
  | false => simp at h; subst h; exact ⟨rfl, rfl, rfl, rfl, rfl⟩
  | true =>
    cases fetch with
    | error e => simp at h
    | ok d =>
      simp at h
      subst h
      exact ⟨rfl, rfl, rfl, rfl, rfl⟩

/-- `qnaRetrieve` preserves the retriever flag and chat-history state. -/
theorem qnaRetrieve_pres (st : BotState) (o : Oracle) (q : String) :
    (qnaRetrieve st o q).1.hasRetriever = st.hasRetriever ∧
    (qnaRetrieve st o q).1.chat_histories = st.chat_histories ∧
    (qnaRetrieve st o q).1.chat_history_persist = st.chat_history_persist ∧
    (qnaRetrieve st o q).1.chat_save_every = st.chat_save_every := by
  unfold qnaRetrieve
  by_cases hu : st.use_sheet
  · simp only [hu, if_true]
    cases hre : _refresh_sheets st o.refreshDue o.sheetsFetch with
    | error e => exact ⟨rfl, rfl, rfl, rfl⟩
    | ok st1 =>
      obtain ⟨p1, p2, p3, p4, _⟩ := refresh_preserves st o.refreshDue o.sheetsFetch st1 hre
      by_cases ht : o.retrieveTimeout <;> simp [ht, p1, p2, p3, p4]
  · simp [hu]

/-- When the bot has no FAISS fallback retriever, the `QNA` branch always
returns normally. -/
theorem qnaBranch_ok (st : BotState) (o : Oracle) (query : String)
    (skk : Option String) (so : Option SessObj) (hr : st.hasRetriever = false) :
    ∃ r, qnaBranch st o query skk so = .ok r := by
  unfold qnaBranch
  have h1 : (qnaRetrieve st o query).1.hasRetriever = false :=
    (qnaRetrieve_pres st o query).1.trans hr
  simp only [h1, Bool.and_false, if_false]
  exact ⟨_, rfl⟩

/-- Every non-`ORDER` dispatch returns normally when no FAISS retriever is
present. -/
theorem askDispatch_ok (st : BotState) (o : Oracle) (query : String)
    (k : Option String) (so : Option SessObj) (intent : String)
    (h : intent ≠ "ORDER" ∨ sessObjTruthy so = false)
    (hr : st.hasRetriever = false) :
    ∃ r, askDispatch st o query k so intent = .ok r := by
  unfold askDispatch
  by_cases h1 : intent = "MENU"
  · rw [if_pos h1]; exact ⟨_, rfl⟩
  · rw [if_neg h1]
    have hg : (decide (intent = "ORDER") && sessObjTruthy so) = false := by
      rcases h with h | h <;> simp [h]
    rw [hg]
    simp only [Bool.false_eq_true, if_false]
    by_cases h3 : (decide (intent = "SERVICE_REQUEST") || decide (intent = "TICKET")) = true
    · rw [if_pos h3]; exact ⟨_, rfl⟩
    · rw [if_neg h3]
      by_cases h5 : intent = "QNA"
      · rw [if_pos h5]; exact qnaBranch_ok st o query k so hr
      · rw [if_neg h5]; exact ⟨_, rfl⟩

/-- C2 (amended): the error boundary holds on every branch except `ORDER`:
whenever the resolved intent is not `ORDER` (or no truthy session object
resolves, so the `ORDER` branch is skipped), and the bot is in the
sheet-backed configuration (no FAISS fallback retriever — the state after a
successful init), `ask` returns normally for every collaborator outcome.
In the `ORDER` branch the cache refresh is not guarded, so a sheet-fetch
failure escapes (see the counterexample); the FAISS fallback path would
also raise on a non-empty result (`Document` is not subscriptable). -/
theorem C2_amended (st : BotState) (o : Oracle) (query : String)
    (us : Option UserSession) (sk : Option String)
    (h : resolveIntent ((o.intent).getD "UNKNOWN") query ≠ "ORDER" ∨
         sessObjTruthy (_extract_session_object us sk).2 = false)
    (hr : st.hasRetriever = false) :
    ∃ r, ask st o query us sk = .ok r := by
  rw [ask_eq]
  exact askDispatch_ok st o query _ _ _ h hr

/-- C2 (amended, witness): a QNA-classified message with every collaborator
failing still returns normally. -/
theorem C2_amended_witness :
    ∃ r, ask st0
      { intent := some "QNA", refreshDue := true, sheetsFetch := .error (),
        vectorDocs := .error (), llmReply := .error "boom" }
      "what time is check-in" none none = .ok r :=
  C2_amended st0
    { intent := some "QNA", refreshDue := true, sheetsFetch := .error (),
      vectorDocs := .error (), llmReply := .error "boom" }
    "what time is check-in" none none (Or.inl (by decide)) (by decide)

/-- With no FAISS retriever, the QNA branch is exactly: compute the answer
from the sheet docs, then append it to the session history. -/
theorem qnaBranch_shape (st : BotState) (o : Oracle) (query : String)
    (skk : Option String) (so : Option SessObj) (hr : st.hasRetriever = false) :
    qnaBranch st o query skk so =
      (let st1 := (qnaRetrieve st o query).1
       let core := qnaCore st1 o query skk so (qnaRetrieve st o query).2
       let app := appendHistory st1 skk query core.1
       .ok (some core.1, app.1, core.2 ++ app.2)) := by
  unfold qnaBranch
  have h1 : (qnaRetrieve st o query).1.hasRetriever = false :=
    (qnaRetrieve_pres st o query).1.trans hr
  simp only [h1, Bool.and_false, Bool.false_eq_true, if_false]

/-- The state produced by `appendHistory` at a truthy key. -/
theorem appendHistory_some_fst (st : BotState) (k q a : String) (hk : k ≠ "") :
    (appendHistory st (some k) q a).1 =
      { st with chat_histories :=
          (updAssoc k (((st.chat_histories.lookup k).getD []) ++
            [(⟨"user", q⟩ : ChatMsg), ⟨"assistant", a⟩]) st.chat_histories) } := by
  simp only [appendHistory]
  rw [if_neg hk]
  split <;> rfl

/-- The persistence effect produced by `appendHistory` at a truthy key. -/
theorem appendHistory_some_snd (st : BotState) (k q a : String) (hk : k ≠ "") :
    (appendHistory st (some k) q a).2 =
      (if (st.chat_history_persist &&
          decide ((((st.chat_histories.lookup k).getD []) ++
            [(⟨"user", q⟩ : ChatMsg), ⟨"assistant", a⟩]).length % st.chat_save_every = 0)) = true
       then
        [Effect.persistAttempt k (((st.chat_histories.lookup k).getD []) ++
          [(⟨"user", q⟩ : ChatMsg), ⟨"assistant", a⟩])]
       else []) := by
  simp only [appendHistory]
  rw [if_neg hk]
  split <;> rfl

/-- `qnaCore` emits only LLM/usage effects — never a persistence effect. -/
theorem qnaCore_no_persist (st : BotState) (o : Oracle) (query : String)
    (skk : Option String) (so : Option SessObj) (docs : List RetrievedDoc)
    (k : String) (h : List ChatMsg) :
    Effect.persistAttempt k h ∉ (qnaCore st o query skk so docs).2 := by
  unfold qnaCore
  cases hd : docs.head? with
  | none => simp
  | some bm =>
    by_cases hs : bm.score < QNA_MIN_SCORE <;> simp [hs]

/-- C3 (counterexample): a `MENU` message with a resolvable session returns
the menu listing with the chat-history map untouched and no messages
appended — the `ask` epilogue that appends user+assistant messages lives
inside the `QNA` branch only, contradicting "for every branch … the user
message and the assistant reply are appended". -/
theorem C3_counterexample :
    ask st0 { intent := some "MENU", refreshDue := false } "show me the menu"
      (some (.wrapper (some [("email", "guest@x.com")]))) none
      = .ok (some "Menu information is currently unavailable.", st0, []) := by
  rfl

/-- C3 (amended): only the `QNA` branch appends to the session chat
history.  (1) Whenever the resolved intent is not `QNA`, a normal return of
`ask` leaves the chat-history map unchanged (and in particular appends
nothing).  (2) In the `QNA` branch (sheet-backed configuration), with a
truthy resolvable session key `k`, the user message and the assistant reply
are appended to `k`'s history before `ask` returns, and a persistence
attempt fires exactly when `chat_history_persist` is set and the new length
is a multiple of `chat_save_every` (default 5). -/
theorem C3_amended :
    (∀ (st : BotState) (o : Oracle) (query : String) (us : Option UserSession)
        (sk : Option String) (r : Option String × BotState × List Effect),
      resolveIntent ((o.intent).getD "UNKNOWN") query ≠ "QNA" →
      ask st o query us sk = .ok r →
      r.2.1.chat_histories = st.chat_histories) ∧
    (∀ (st : BotState) (o : Oracle) (query : String) (us : Option UserSession)
        (sk : Option String) (k : String),
      st.hasRetriever = false →
      resolveIntent ((o.intent).getD "UNKNOWN") query = "QNA" →
      (_extract_session_object us sk).1 = some k →
      k ≠ "" →
      ∃ (ans : String) (st' : BotState) (eff : List Effect),
        ask st o query us sk = .ok (some ans, st', eff) ∧
        st'.chat_histories =
          updAssoc k (((st.chat_histories.lookup k).getD []) ++
            [(⟨"user", query⟩ : ChatMsg), ⟨"assistant", ans⟩]) st.chat_histories ∧
        (Effect.persistAttempt k (((st.chat_histories.lookup k).getD []) ++
            [(⟨"user", query⟩ : ChatMsg), ⟨"assistant", ans⟩]) ∈ eff ↔
          (st.chat_history_persist = true ∧
           ((((st.chat_histories.lookup k).getD []) ++
             [(⟨"user", query⟩ : ChatMsg), ⟨"assistant", ans⟩]).length % st.chat_save_every = 0)))) := by
  constructor
  · intro st o query us sk r hq hask
    rw [ask_eq] at hask
    unfold askDispatch at hask
    by_cases h1 : resolveIntent ((o.intent).getD "UNKNOWN") query = "MENU"
    · rw [if_pos h1] at hask
      injection hask with h2
      subst h2
      cases hre : _refresh_sheets st o.refreshDue o.sheetsFetch with
      | error e => simp [hre]
      | ok st1 =>
        simp [hre]
        exact (refresh_preserves _ _ _ _ hre).2.1
    · rw [if_neg h1] at hask
      by_cases h2 : (decide (resolveIntent ((o.intent).getD "UNKNOWN") query = "ORDER") &&
          sessObjTruthy (_extract_session_object us sk).2) = true
      · rw [if_pos h2] at hask
        cases hso : (_extract_session_object us sk).2 with
        | none =>
          rw [hso] at hask
          injection hask with h3
          subst h3
          rfl
        | some so =>
          rw [hso] at hask
          unfold orderBranch at hask
          cases hre : _refresh_sheets st o.refreshDue o.sheetsFetch with
          | error e => rw [hre] at hask; exact absurd hask (by simp)
          | ok st1 =>
            rw [hre] at hask
            injection hask with h3
            subst h3
            exact (refresh_preserves _ _ _ _ hre).2.1
      · rw [if_neg h2] at hask
        by_cases h3 : (decide (resolveIntent ((o.intent).getD "UNKNOWN") query = "SERVICE_REQUEST") ||
            decide (resolveIntent ((o.intent).getD "UNKNOWN") query = "TICKET")) = true
        · rw [if_pos h3] at hask
          injection hask with h4
          subst h4
          rfl
        · rw [if_neg h3] at hask
          rw [if_neg hq] at hask
          injection hask with h4
          subst h4
          rfl
  · intro st o query us sk k hr hq hk hke
    have hd : ask st o query us sk =
        qnaBranch st o query (some k) (_extract_session_object us sk).2 := by
      rw [ask_eq, hq, hk]
      rfl
    rw [hd, qnaBranch_shape st o query (some k) (_extract_session_object us sk).2 hr]
    obtain ⟨-, hch, hcp, hcs⟩ := qnaRetrieve_pres st o query
    refine ⟨_, _, _, rfl, ?_, ?_⟩
    · rw [appendHistory_some_fst _ _ _ _ hke]
      simp only [hch]
    · rw [appendHistory_some_snd _ _ _ _ hke]
      have hnp := qnaCore_no_persist (qnaRetrieve st o query).1 o query (some k)
        (_extract_session_object us sk).2 (qnaRetrieve st o query).2 k
        (((st.chat_histories.lookup k).getD []) ++
          [(⟨"user", query⟩ : ChatMsg), ⟨"assistant",
            (qnaCore (qnaRetrieve st o query).1 o query (some k)
              (_extract_session_object us sk).2 (qnaRetrieve st o query).2).1⟩])
      simp only [hch, hcp, hcs, List.mem_append]
      by_cases hp : st.chat_history_persist <;>
        by_cases hm : (((st.chat_histories.lookup k).getD []) ++
            [(⟨"user", query⟩ : ChatMsg), ⟨"assistant",
              (qnaCore (qnaRetrieve st o query).1 o query (some k)
                (_extract_session_object us sk).2 (qnaRetrieve st o query).2).1⟩]).length %
            st.chat_save_every = 0 <;>
        simp [hp, hm, hnp]

/-- C3 (amended, witness): a concrete QNA run with a resolvable wrapper
session appends the user/assistant pair for key `"g@x.com"`. -/
theorem C3_amended_witness :
    ∃ (ans : String) (st' : BotState) (eff : List Effect),
      ask st0 { intent := some "QNA", refreshDue := false } "hello"
        (some (.wrapper (some [("email", "g@x.com")]))) none = .ok (some ans, st', eff) ∧
      st'.chat_histories =
        updAssoc "g@x.com" (((st0.chat_histories.lookup "g@x.com").getD []) ++
          [(⟨"user", "hello"⟩ : ChatMsg), ⟨"assistant", ans⟩]) st0.chat_histories ∧
      (Effect.persistAttempt "g@x.com" (((st0.chat_histories.lookup "g@x.com").getD []) ++
          [(⟨"user", "hello"⟩ : ChatMsg), ⟨"assistant", ans⟩]) ∈ eff ↔
        (st0.chat_history_persist = true ∧
         ((((st0.chat_histories.lookup "g@x.com").getD []) ++
           [(⟨"user", "hello"⟩ : ChatMsg), ⟨"assistant", ans⟩]).length %
             st0.chat_save_every = 0))) :=
  C3_amended.2 st0 { intent := some "QNA", refreshDue := false } "hello"
    (some (.wrapper (some [("email", "g@x.com")]))) none "g@x.com"
    (by decide) (by decide) (by decide) (by decide)

/-- C7: in the keyword fallback cascade (applied only when the LLM returns
`UNKNOWN`), ticket keywords take precedence over every later rule: any
message containing a ticket keyword resolves to `TICKET` (and `ask` then
answers with the fixed acknowledgment), regardless of service, order or
menu keywords; in particular `"the AC is not working in room 12"`
classifies as `TICKET`. -/
theorem C7_keyword_fallback :
    (∀ q, _is_ticket_request q = true → resolveIntent "UNKNOWN" q = "TICKET") ∧
    (∀ (st : BotState) (o : Oracle) (query : String) (us : Option UserSession)
        (sk : Option String),
      o.intent = some "UNKNOWN" → _is_ticket_request query = true →
      ask st o query us sk = .ok (some ACK_STRING, st, [])) ∧
    resolveIntent "UNKNOWN" "the AC is not working in room 12" = "TICKET" := by
  refine ⟨?_, ?_, by decide⟩
  · intro q hq
    unfold resolveIntent
    simp [hq]
  · intro st o query us sk ho hq
    apply ask_service_ticket
    right
    rw [ho]
    unfold resolveIntent
    simp [hq]

/-- C7 (witness): a message carrying a ticket keyword *and* service/menu
keywords still resolves to `TICKET`, and the concrete AC message gets the
acknowledgment from `ask`. -/
theorem C7_keyword_fallback_witness :
    resolveIntent "UNKNOWN" "the spa is closed and the ac is not working, show me the menu"
      = "TICKET" ∧
    ask st0 { intent := some "UNKNOWN" } "the AC is not working in room 12" none none
      = .ok (some ACK_STRING, st0, []) :=
  ⟨C7_keyword_fallback.1 _ (by decide),
   C7_keyword_fallback.2.1 st0 { intent := some "UNKNOWN" }
     "the AC is not working in room 12" none none rfl (by decide)⟩

/-- C10: `ask` does not always return a string.  When the LLM classification
is `SMALL_TALK` (an allowed intent with no branch in the `if/elif` chain),
or `ORDER` while no truthy session object resolves, no branch matches and
`ask` returns Python's implicit `None`. -/
theorem C10_no_branch_returns_none :
    (∀ (st : BotState) (o : Oracle) (query : String) (us : Option UserSession)
        (sk : Option String),
      o.intent = some "SMALL_TALK" →
      ask st o query us sk = .ok (none, st, [])) ∧
    (∀ (st : BotState) (o : Oracle) (query : String) (us : Option UserSession)
        (sk : Option String),
      o.intent = some "ORDER" →
      sessObjTruthy (_extract_session_object us sk).2 = false →
      ask st o query us sk = .ok (none, st, [])) := by
  constructor
  · intro st o query us sk ho
    rw [ask_eq, ho]
    rfl
  · intro st o query us sk ho hs
    rw [ask_eq, ho]
    have hri : resolveIntent "ORDER" query = "ORDER" := rfl
    unfold askDispatch
    simp [hri, hs]

/-- C10 (witness): concrete `SMALL_TALK` and session-less `ORDER` runs both
return `None`. -/
theorem C10_witness :
    ask st0 { intent := some "SMALL_TALK" } "hello there" none none = .ok (none, st0, []) ∧
    ask st0 { intent := some "ORDER", refreshDue := false } "2 coffee" none none
      = .ok (none, st0, []) :=
  ⟨C10_no_branch_returns_none.1 st0 { intent := some "SMALL_TALK" } "hello there" none none rfl,
   C10_no_branch_returns_none.2 st0 { intent := some "ORDER", refreshDue := false }
     "2 coffee" none none rfl (by decide)⟩

/-- Everything `appendHistory` emits is a persistence effect. -/
theorem appendHistory_persist_only (st : BotState) (skk : Option String) (q a : String)
    (e : Effect) (he : e ∈ (appendHistory st skk q a).2) :
    ∃ k h, e = .persistAttempt k h := by
  cases skk with
  | none => simp [appendHistory] at he
  | some k =>
    simp only [appendHistory] at he
    split at he
    · simp at he
    · split at he
      · simp at he
        exact ⟨_, _, he⟩
      · simp at he

/-- C4: the `QNA` threshold comparison is `best_match["score"] <
QNA_MIN_SCORE`, so a best score exactly equal to `0.55` takes the matched
path — the entry's usage counter is incremented and the LLM is called under
the timeout wrapper — while the soft-fallback path (LLM call without the
timeout wrapper, no usage increment) is taken exactly when the best score
is strictly below `0.55`. -/
theorem C4_threshold (st : BotState) (o : Oracle) (query : String)
    (us : Option UserSession) (sk : Option String) (bm : RetrievedDoc)
    (rest : List RetrievedDoc)
    (hu : st.use_sheet = true) (hr : st.hasRetriever = false)
    (hdue : o.refreshDue = false) (ht : o.retrieveTimeout = false)
    (hq : resolveIntent ((o.intent).getD "UNKNOWN") query = "QNA")
    (hret : _retrieve_from_sheets st.qna_rows query st.retriever_k = bm :: rest) :
    ∃ (ans : String) (st' : BotState) (eff : List Effect),
      ask st o query us sk = .ok (some ans, st', eff) ∧
      (QNA_MIN_SCORE ≤ bm.score →
        Effect.usageIncrementAttempt bm.metadata.qna_id ∈ eff ∧
        (∃ p, Effect.llmCallWithTimeout p ∈ eff) ∧
        (∀ p, Effect.llmCallNoTimeout p ∉ eff)) ∧
      (bm.score < QNA_MIN_SCORE →
        (∃ p, Effect.llmCallNoTimeout p ∈ eff) ∧
        (∀ p, Effect.llmCallWithTimeout p ∉ eff) ∧
        (∀ i, Effect.usageIncrementAttempt i ∉ eff)) := by
  have hqr : qnaRetrieve st o query = (st, bm :: rest) := by
    unfold qnaRetrieve _refresh_sheets
    simp [hu, hdue, ht, hret]
  have hask : ask st o query us sk =
      qnaBranch st o query (_extract_session_object us sk).1
        (_extract_session_object us sk).2 := by
    rw [ask_eq, hq]
    rfl
  rw [hask, qnaBranch_shape _ _ _ _ _ hr, hqr]
  simp only []
  unfold qnaCore
  simp only [List.head?]
  by_cases hsc : bm.score < QNA_MIN_SCORE
  · rw [if_pos hsc]
    refine ⟨_, _, _, rfl, ?_, ?_⟩
    · intro hge
      exact absurd hsc (not_lt.mpr hge)
    · intro _
      refine ⟨⟨_, List.mem_append_left _ (List.mem_singleton_self _)⟩, ?_, ?_⟩
      · intro p hp
        rcases List.mem_append.mp hp with hp | hp
        · simp at hp
        · obtain ⟨k, h, hh⟩ := appendHistory_persist_only _ _ _ _ _ hp
          cases hh
      · intro i hi
        rcases List.mem_append.mp hi with hi | hi
        · simp at hi
        · obtain ⟨k, h, hh⟩ := appendHistory_persist_only _ _ _ _ _ hi
          cases hh
  · rw [if_neg hsc]
    refine ⟨_, _, _, rfl, ?_, ?_⟩
    · intro _
      refine ⟨List.mem_append_left _ (List.mem_cons_self _ _),
        ⟨_, List.mem_append_left _ (List.mem_cons_of_mem _ (List.mem_singleton_self _))⟩, ?_⟩
      intro p hp
      rcases List.mem_append.mp hp with hp | hp
      · simp at hp
      · obtain ⟨k, h, hh⟩ := appendHistory_persist_only _ _ _ _ _ hp
        cases hh
    · intro hlt
      exact absurd hlt hsc

/-- Concrete knowledge-cache row used by the C4 witness. -/
def qrow : QnaRow :=
  { qna_id := "QA1", question := "A b", answer := "ans",
    page_content := "Q: A b\nA: ans", question_norm := "a b" }

/-- `SequenceMatcher(None, "a b", "b c").ratio() == 1/3`. -/
theorem smRatio_ab_bc : smRatio "a b" "b c" = 1 / 3 := by
  unfold smRatio
  rw [if_neg (by decide)]
  rw [show smMatches "a b".data "b c".data = 1 from by decide]
  norm_num

/-- The witness pair scores exactly `QNA_MIN_SCORE`:
`0.6·(1/2) + 0.3·(1/3) + 0.15 = 0.55`. -/
theorem score_ab_bc : _score_doc "a b" "b c" = 11 / 20 := by
  unfold _score_doc
  rw [if_neg (by decide)]
  simp only []
  rw [show (pySplit "b c").dedup = ["b", "c"] from by decide,
      show (pySplit "a b").dedup = ["a", "b"] from by decide]
  rw [show (["b", "c"].filter (fun t => t ∈ (["a", "b"] : List String))).length = 1 from by decide]
  rw [show (["b", "c"] : List String).any (fun k => strIn k "a b") = true from by decide]
  rw [smRatio_ab_bc]
  norm_num

/-- Retrieval over the one-row cache returns that row scored `11/20`. -/
theorem retrieve_qrow : _retrieve_from_sheets [qrow] "b c" 5 =
    [⟨"Q: A b\nA: ans", 11 / 20, qrow⟩] := by
  have h0 : (0 : ℚ) < 11 / 20 := by norm_num
  unfold _retrieve_from_sheets
  rw [show _normalize_text "b c" = "b c" from by decide]
  simp only [List.map, qrow, score_ab_bc, List.filter, decide_eq_true h0, sortDesc,
    insertDesc, List.take]

/-- Bot state of the C4 witness: fresh state with the one-row cache. -/
def st4 : BotState := { st0 with qna_rows := [qrow] }

/-- C4 (witness): with the best match scoring exactly `0.55`, the matched
path runs — usage increment and timed LLM call, no soft-fallback call. -/
theorem C4_threshold_witness :
    ∃ (ans : String) (st' : BotState) (eff : List Effect),
      ask st4 { intent := some "QNA", refreshDue := false } "b c" none none
        = .ok (some ans, st', eff) ∧
      (QNA_MIN_SCORE ≤ (⟨"Q: A b\nA: ans", 11 / 20, qrow⟩ : RetrievedDoc).score →
        Effect.usageIncrementAttempt (⟨"Q: A b\nA: ans", 11 / 20, qrow⟩ : RetrievedDoc).metadata.qna_id ∈ eff ∧
        (∃ p, Effect.llmCallWithTimeout p ∈ eff) ∧
        (∀ p, Effect.llmCallNoTimeout p ∉ eff)) ∧
      ((⟨"Q: A b\nA: ans", 11 / 20, qrow⟩ : RetrievedDoc).score < QNA_MIN_SCORE →
        (∃ p, Effect.llmCallNoTimeout p ∈ eff) ∧
        (∀ p, Effect.llmCallWithTimeout p ∉ eff) ∧
        (∀ i, Effect.usageIncrementAttempt i ∉ eff)) :=
  C4_threshold st4 { intent := some "QNA", refreshDue := false } "b c" none none
    ⟨"Q: A b\nA: ans", 11 / 20, qrow⟩ [] rfl rfl rfl rfl (by decide) retrieve_qrow

/-- Guest record for the C5 runs. -/
def guest5 : PyDict := [("room_alloted", "12"), ("email", "g@x.com"), ("name", "G")]

/-- A recent Open ticket whose `Request` differs from the incoming text only
by whitespace collapsing. -/
def trow : TicketRow :=
  { ticket_id := "TCK-1", email := "e", name := "n", room_no := "12",
    request := "wifi  broken", category := "c", assigned_to := "c", status := "Open",
    created_at := "t", resolved_at := "", notes := "" }

/-- C5 (counterexample): the Dedup Guard does *not* use the Matcher
normalization.  The stored Open ticket for room 12 has request
`"wifi  broken"` (double blank), the incoming request is `"wifi broken"`;
under `_normalize_text` (the Matcher normalization) the two are equal, so
the claim demands the existing `"TCK-1"` be returned — but `_raise_ticket`
compares `strip().lower()` only, misses the duplicate, and creates a fresh
ticket. -/
theorem C5_counterexample :
    (_raise_ticket guest5 "wifi broken" "Maintenance" (.ok [trow]) "TCK-NEW" "t0").1
        = "TCK-NEW" ∧
    (_raise_ticket guest5 "wifi broken" "Maintenance" (.ok [trow]) "TCK-NEW" "t0").1
        ≠ "TCK-1" ∧
    (_raise_ticket guest5 "wifi broken" "Maintenance" (.ok [trow]) "TCK-NEW" "t0").2.isSome
        = true ∧
    _normalize_text trow.request = _normalize_text "wifi broken" ∧
    trow.status = "Open" ∧ trow.room_no = "12" ∧
    (pyGet guest5 "room_alloted").getD "N/A" = "12" := by
  decide

/-- `find?` returns the first satisfying element. -/
theorem find?_first {α : Type} (p : α → Bool) :
    ∀ (w1 : List α) (row : α) (w2 : List α),
      (∀ r ∈ w1, p r = false) → p row = true →
      (w1 ++ row :: w2).find? p = some row := by
  intro w1
  induction w1 with
  | nil =>
    intro row w2 _ hrow
    simp [List.find?, hrow]
  | cons a t ih =>
    intro row w2 hw hrow
    have ha : p a = false := hw a (List.mem_cons_self a t)
    simp only [List.cons_append, List.find?, ha]
    exact ih row w2 (fun r hr => hw r (List.mem_cons_of_mem a hr)) hrow

/-- C5 (amended): `_raise_ticket` normalizes the request with
`strip().lower()` only — *not* the Matcher normalization `_normalize_text`
(see the counterexample) — and scans the `15` most recent ticket records:
(1) if the window splits as `w1 ++ row :: w2` with no match in `w1` and
`row` matching (same `Room No`, equal stripped-lowercased `Request`, status
`Open` or `In Progress`), the existing `row`'s Ticket ID is returned and
nothing is appended; (2) if no record in the window matches, a fresh ticket
with the new id and status `Open` is appended; (3) a failed record fetch is
swallowed and also leads to ticket creation. -/
theorem C5_amended :
    (∀ (guest : PyDict) (request_text category : String) (rows : List TicketRow)
        (new_id t : String) (w1 : List TicketRow) (row : TicketRow) (w2 : List TicketRow),
      rows.drop (rows.length - 15) = w1 ++ row :: w2 →
      (∀ r ∈ w1, dupMatch ((pyGet guest "room_alloted").getD "N/A")
        (pyLower (pyStrip request_text)) r = false) →
      dupMatch ((pyGet guest "room_alloted").getD "N/A")
        (pyLower (pyStrip request_text)) row = true →
      _raise_ticket guest request_text category (.ok rows) new_id t
        = (row.ticket_id, none)) ∧
    (∀ (guest : PyDict) (request_text category : String) (rows : List TicketRow)
        (new_id t : String),
      (∀ r ∈ rows.drop (rows.length - 15),
        dupMatch ((pyGet guest "room_alloted").getD "N/A")
          (pyLower (pyStrip request_text)) r = false) →
      ∃ newRow, _raise_ticket guest request_text category (.ok rows) new_id t
          = (new_id, some newRow) ∧
        newRow.ticket_id = new_id ∧ newRow.status = "Open" ∧
        newRow.request = request_text ∧
        newRow.room_no = (pyGet guest "room_alloted").getD "N/A") ∧
    (∀ (guest : PyDict) (request_text category : String) (new_id t : String),
      ∃ newRow, _raise_ticket guest request_text category (.error ()) new_id t
          = (new_id, some newRow) ∧ newRow.status = "Open") := by
  refine ⟨?_, ?_, ?_⟩
  · intro guest request_text category rows new_id t w1 row w2 hsplit hw1 hrow
    unfold _raise_ticket
    simp only []
    rw [hsplit, find?_first _ w1 row w2 hw1 hrow]
  · intro guest request_text category rows new_id t hnone
    unfold _raise_ticket
    simp only []
    rw [List.find?_eq_none.mpr (fun r hr => by simp [hnone r hr])]
    exact ⟨_, rfl, rfl, rfl, rfl, rfl⟩
  · intro guest request_text category new_id t
    exact ⟨_, rfl, rfl⟩

/-- C5 (amended, witness): the stored ticket `"TCK-1"` is reused for a
byte-identical request (modulo strip/lower) and room. -/
theorem C5_amended_witness :
    _raise_ticket guest5 "Wifi  broken " "Maintenance" (.ok [trow]) "TCK-NEW" "t0"
      = ("TCK-1", none) :=
  C5_amended.1 guest5 "Wifi  broken " "Maintenance" [trow] "TCK-NEW" "t0" [] trow []
    (by decide) (by decide) (by decide)

/-- Entries without parseable timestamps are skipped by the fold. -/
theorem gls_fold_none : ∀ (l : List (String × SessRec)),
    (∀ p ∈ l, p.2.last_login = none) →
    ∀ acc, l.foldl glsStep acc = acc
  | [], _, _ => rfl
  | a :: t, h, acc => by
    have ha := h a (List.mem_cons_self _ _)
    simp only [List.foldl, glsStep, ha]
    exact gls_fold_none t (fun p hp => h p (List.mem_cons_of_mem _ hp)) acc

/-- Once the running maximum `m` dominates every remaining timestamp, the
fold never changes its accumulator again (strict `>` keeps ties at the
first maximum). -/
theorem gls_fold_post : ∀ (post : List (String × SessRec)) (key : Option String) (m : Int),
    (∀ p ∈ post, ∀ t, p.2.last_login = some t → t ≤ m) →
    post.foldl glsStep (key, some m) = (key, some m)
  | [], _, _, _ => rfl
  | a :: t, key, m, h => by
    have hstep : glsStep (key, some m) a = (key, some m) := by
      unfold glsStep
      cases hla : a.2.last_login with
      | none => rfl
      | some ts =>
        have hle := h a (List.mem_cons_self _ _) ts hla
        simp [not_lt.mpr hle]
    simp only [List.foldl, hstep]
    exact gls_fold_post t key m (fun p hp t' ht' => h p (List.mem_cons_of_mem _ hp) t' ht')

/-- Invariant over the prefix before the maximum: the accumulator's
timestamp, if any, stays strictly below `m`. -/
theorem gls_fold_pre : ∀ (pre : List (String × SessRec)) (m : Int),
    (∀ p ∈ pre, ∀ t, p.2.last_login = some t → t < m) →
    ∀ acc : Option String × Option Int,
      (acc.2 = none ∨ ∃ t, acc.2 = some t ∧ t < m) →
      ((pre.foldl glsStep acc).2 = none ∨ ∃ t, (pre.foldl glsStep acc).2 = some t ∧ t < m)
  | [], _, _, acc, hacc => hacc
  | a :: tl, m, h, acc, hacc => by
    simp only [List.foldl]
    apply gls_fold_pre tl m (fun p hp t' ht' => h p (List.mem_cons_of_mem _ hp) t' ht')
    unfold glsStep
    cases hla : a.2.last_login with
    | none => exact hacc
    | some ts =>
      have hts := h a (List.mem_cons_self _ _) ts hla
      rcases hacc with hn | ⟨t, ht, hlt⟩
      · rw [hn]
        exact Or.inr ⟨ts, rfl, hts⟩
      · rw [ht]
        simp only []
        by_cases hc : t < ts
        · rw [if_pos hc]
          exact Or.inr ⟨ts, rfl, hts⟩
        · rw [if_neg hc]
          exact Or.inr ⟨t, ht, hlt⟩

/-- Hitting the (first) maximum replaces the accumulator. -/
theorem gls_step_max (acc : Option String × Option Int) (k : String) (r : SessRec)
    (m : Int) (hr : r.last_login = some m)
    (hinv : acc.2 = none ∨ ∃ t, acc.2 = some t ∧ t < m) :
    glsStep acc (k, r) = (some k, some m) := by
  unfold glsStep
  simp only [hr]
  rcases hinv with hn | ⟨t, ht, hlt⟩
  · rw [hn]
  · rw [ht]
    simp only []
    rw [if_pos hlt]

/-- C9 (counterexample): two sessions with *equal* `last_login` timestamps —
the strict `>` comparison keeps the first-inserted session `"k1"`, not the
most recently inserted `"k2"` the claim demands for ties. -/
theorem C9_counterexample :
    get_latest_session [("k1", ⟨some 5, "s1"⟩), ("k2", ⟨some 5, "s2"⟩)]
      = (some "k1", some ⟨some 5, "s1"⟩) ∧ ("k1" : String) ≠ "k2" := by
  constructor
  · rfl
  · decide

/-- C9 (amended): `get_latest_session` returns the *first-inserted* session
attaining the maximum parseable `last_login` (so for `t1 < t2 < t3` it
returns the `t3` session, but on ties the earliest inserted wins, not the
most recently inserted); the most-recently-inserted fallback applies only
when no session has a parseable timestamp; the empty map yields
`(None, None)` (as does a falsy selected key). -/
theorem C9_amended :
    (get_latest_session [] = (none, none)) ∧
    (∀ (pre : List (String × SessRec)) (k : String) (r : SessRec)
        (post : List (String × SessRec)) (m : Int),
      r.last_login = some m →
      (∀ p ∈ pre, ∀ t, p.2.last_login = some t → t < m) →
      (∀ p ∈ post, ∀ t, p.2.last_login = some t → t ≤ m) →
      k ≠ "" →
      get_latest_session (pre ++ (k, r) :: post)
        = (some k, (pre ++ (k, r) :: post).lookup k)) ∧
    (∀ (l : List (String × SessRec)) (k : String) (r : SessRec),
      (∀ p ∈ l ++ [(k, r)], p.2.last_login = none) →
      k ≠ "" →
      get_latest_session (l ++ [(k, r)]) = (some k, (l ++ [(k, r)]).lookup k)) := by
  refine ⟨rfl, ?_, ?_⟩
  · intro pre k r post m hr hpre hpost hk
    unfold get_latest_session
    rw [if_neg (by simp)]
    rw [List.foldl_append]
    simp only [List.foldl]
    rw [gls_step_max _ k r m hr (gls_fold_pre pre m hpre (none, none) (Or.inl rfl))]
    rw [gls_fold_post post (some k) m hpost]
    simp [hk]
  · intro l k r hall hk
    unfold get_latest_session
    rw [if_neg (by simp)]
    rw [gls_fold_none _ hall _]
    simp [hk]

/-- C9 (amended, witness): three sessions with `t1 < t2 < t3` — the `t3`
session is returned. -/
theorem C9_amended_witness :
    get_latest_session [("a", ⟨some 1, "s1"⟩), ("b", ⟨some 2, "s2"⟩), ("c", ⟨some 3, "s3"⟩)]
      = (some "c", ([("a", (⟨some 1, "s1"⟩ : SessRec)), ("b", ⟨some 2, "s2"⟩),
          ("c", ⟨some 3, "s3"⟩)]).lookup "c") :=
  C9_amended.2.1 [("a", ⟨some 1, "s1"⟩), ("b", ⟨some 2, "s2"⟩)] "c" ⟨some 3, "s3"⟩ [] 3
    rfl (by decide) (by decide) (by decide)

/-! ### Properties of the retrieval sort (C6) -/

/-- The `scored`-and-filtered list inside `_retrieve_from_sheets`
(everything before the sort). -/
def retrievePos (cache : List QnaRow) (query : String) : List Scored :=
  (cache.map (fun row =>
    (_score_doc row.question_norm (_normalize_text query), row.page_content, row))).filter
    (fun s => 0 < s.1)

/-- Repackage a scored triple as the returned dict. -/
def toDoc (s : Scored) : RetrievedDoc := ⟨s.2.1, s.1, s.2.2⟩

/-- `_retrieve_from_sheets` is sort-take-map over `retrievePos`. -/
theorem retrieve_eq (cache : List QnaRow) (query : String) (k : Nat) :
    _retrieve_from_sheets cache query k =
      ((sortDesc (retrievePos cache query)).take k).map toDoc := rfl

theorem insertDesc_mem (x : Scored) (ys : List Scored) (z : Scored) :
    z ∈ insertDesc x ys ↔ z = x ∨ z ∈ ys := by
  induction ys with
  | nil => simp [insertDesc]
  | cons y ys ih =>
    unfold insertDesc
    by_cases h : y.1 ≤ x.1
    · simp [h]
    · simp only [h, if_false, List.mem_cons, ih]
      tauto

theorem insertDesc_perm (x : Scored) (ys : List Scored) :
    List.Perm (insertDesc x ys) (x :: ys) := by
  induction ys with
  | nil => simp [insertDesc]
  | cons y ys ih =>
    unfold insertDesc
    by_cases h : y.1 ≤ x.1
    · simp [h]
    · rw [if_neg h]
      exact (ih.cons y).trans (List.Perm.swap x y ys)

/-- The embedded `list.sort(key=..., reverse=True)` is a permutation. -/
theorem sortDesc_perm (l : List Scored) : List.Perm (sortDesc l) l := by
  induction l with
  | nil => rfl
  | cons x xs ih => exact (insertDesc_perm x (sortDesc xs)).trans (ih.cons x)

theorem insertDesc_sorted (x : Scored) (ys : List Scored)
    (h : ys.Pairwise (fun a b => b.1 ≤ a.1)) :
    (insertDesc x ys).Pairwise (fun a b => b.1 ≤ a.1) := by
  induction ys with
  | nil => simp [insertDesc]
  | cons y ys ih =>
    unfold insertDesc
    rcases List.pairwise_cons.mp h with ⟨hy, hys⟩
    by_cases hc : y.1 ≤ x.1
    · rw [if_pos hc]
      refine List.Pairwise.cons ?_ h
      intro z hz
      rcases List.mem_cons.mp hz with rfl | hz
      · exact hc
      · exact (hy z hz).trans hc
    · rw [if_neg hc]
      refine List.Pairwise.cons ?_ (ih hys)
      intro z hz
      rcases (insertDesc_mem x ys z).mp hz with rfl | hz
      · exact le_of_lt (lt_of_not_le hc)
      · exact hy z hz

/-- The sort is descending by score. -/
theorem sortDesc_sorted (l : List Scored) :
    (sortDesc l).Pairwise (fun a b => b.1 ≤ a.1) := by
  induction l with
  | nil => simp [sortDesc]
  | cons x xs ih => exact insertDesc_sorted x (sortDesc xs) ih

/-- Descending order refined with stability: equal scores keep the original
(`ids`-increasing) order. -/
def Rst (ids : QnaRow → Nat) (a b : Scored) : Prop :=
  b.1 ≤ a.1 ∧ (a.1 = b.1 → ids a.2.2 < ids b.2.2)

theorem insertDesc_stable (ids : QnaRow → Nat) (x : Scored) (ys : List Scored)
    (h : ys.Pairwise (Rst ids)) (hx : ∀ y ∈ ys, ids x.2.2 < ids y.2.2) :
    (insertDesc x ys).Pairwise (Rst ids) := by
  induction ys with
  | nil => simp [insertDesc]
  | cons y ys ih =>
    unfold insertDesc
    rcases List.pairwise_cons.mp h with ⟨hy, hys⟩
    by_cases hc : y.1 ≤ x.1
    · rw [if_pos hc]
      refine List.Pairwise.cons ?_ h
      intro z hz
      rcases List.mem_cons.mp hz with rfl | hz
      · exact ⟨hc, fun _ => hx z (List.mem_cons_self _ _)⟩
      · exact ⟨(hy z hz).1.trans hc, fun _ => hx z (List.mem_cons_of_mem _ hz)⟩
    · rw [if_neg hc]
      have hxlt : x.1 < y.1 := lt_of_not_le hc
      refine List.Pairwise.cons ?_ (ih hys (fun z hz => hx z (List.mem_cons_of_mem _ hz)))
      intro z hz
      rcases (insertDesc_mem x ys z).mp hz with rfl | hz
      · exact ⟨le_of_lt hxlt, fun heq => absurd heq (ne_of_gt hxlt)⟩
      · exact hy z hz

/-- The sort is stable: over an `ids`-increasing input it produces a list
pairwise `Rst`. -/
theorem sortDesc_stable (ids : QnaRow → Nat) (l : List Scored)
    (hl : l.Pairwise (fun a b => ids a.2.2 < ids b.2.2)) :
    (sortDesc l).Pairwise (Rst ids) := by
  induction l with
  | nil => simp [sortDesc]
  | cons x xs ih =>
    rcases List.pairwise_cons.mp hl with ⟨hx, hxs⟩
    unfold sortDesc
    refine insertDesc_stable ids x (sortDesc xs) (ih hxs) ?_
    intro y hy
    exact hx y ((sortDesc_perm xs).subset hy)

/-- C6: for every cache and query, `_retrieve_from_sheets` returns exactly
the positive-scoring entries of the (actively-filtered) cache, scored
against the normalized query, in descending score order with ties kept in
original cache order, truncated to the top `k`; entries whose `Status` does
not strip/lower to `"active"` never enter the cache; repeated calls agree;
the empty cache yields the empty sequence. -/
theorem C6_retrieval :
    (∀ (query : String) (k : Nat), _retrieve_from_sheets [] query k = []) ∧
    (∀ (cache : List QnaRow) (query : String) (k : Nat),
      _retrieve_from_sheets cache query k = _retrieve_from_sheets cache query k) ∧
    (∀ (rawRows : List RawQnaRow) (row : QnaRow), row ∈ refreshQna rawRows →
      ∃ raw ∈ rawRows, pyLower (pyStrip raw.status) = "active") ∧
    (∀ (cache : List QnaRow) (query : String) (k : Nat) (d : RetrievedDoc),
      d ∈ _retrieve_from_sheets cache query k →
      0 < d.score ∧ d.metadata ∈ cache ∧
      d.score = _score_doc d.metadata.question_norm (_normalize_text query) ∧
      d.page_content = d.metadata.page_content) ∧
    (∀ (cache : List QnaRow) (query : String) (k : Nat),
      (_retrieve_from_sheets cache query k).length = min k (retrievePos cache query).length) ∧
    (∀ (ids : QnaRow → Nat) (cache : List QnaRow) (query : String) (k : Nat),
      cache.Pairwise (fun r1 r2 => ids r1 < ids r2) →
      (_retrieve_from_sheets cache query k).Pairwise
        (fun a b => b.score ≤ a.score ∧ (a.score = b.score → ids a.metadata < ids b.metadata))) ∧
    (∀ (cache : List QnaRow) (query : String) (k : Nat) (x : Scored),
      x ∈ retrievePos cache query →
      toDoc x ∉ _retrieve_from_sheets cache query k →
      ∀ d ∈ _retrieve_from_sheets cache query k, x.1 ≤ d.score) ∧
    (∀ (cache : List QnaRow) (query : String) (k : Nat),
      (retrievePos cache query).length ≤ k →
      (_retrieve_from_sheets cache query k).Perm ((retrievePos cache query).map toDoc)) := by
  refine ⟨?_, fun _ _ _ => rfl, ?_, ?_, ?_, ?_, ?_, ?_⟩
  · intro query k
    rw [retrieve_eq]
    simp [retrievePos, sortDesc]
  · -- active filtering
    intro rawRows row hrow
    obtain ⟨raw, hraw, hf⟩ := List.mem_filterMap.mp hrow
    refine ⟨raw, hraw, ?_⟩
    by_contra hst
    simp only [] at hf
    rw [if_pos hst] at hf
    exact Option.noConfusion hf
  · -- membership soundness
    intro cache query k d hd
    rw [retrieve_eq] at hd
    obtain ⟨x, hx, hxd⟩ := List.mem_map.mp hd
    have hx1 : x ∈ sortDesc (retrievePos cache query) :=
      (List.take_sublist _ _).mem hx
    have hx2 : x ∈ retrievePos cache query := (sortDesc_perm _).subset hx1
    obtain ⟨hx3, hx4⟩ := List.mem_filter.mp hx2
    obtain ⟨r, hr, hrx⟩ := List.mem_map.mp hx3
    subst hxd
    refine ⟨by simpa using hx4, ?_, ?_, ?_⟩
    · rw [← hrx] at *
      exact hr
    · rw [← hrx]
      rfl
    · rw [← hrx]
      rfl
  · -- length
    intro cache query k
    rw [retrieve_eq, List.length_map, List.length_take, (sortDesc_perm _).length_eq]
  · -- descending + stable
    intro ids cache query k hids
    rw [retrieve_eq]
    rw [List.pairwise_map]
    refine List.Pairwise.imp ?_
      (((sortDesc_stable ids (retrievePos cache query) ?_).sublist (List.take_sublist _ _)))
    · intro a b hab
      exact ⟨hab.1, hab.2⟩
    · unfold retrievePos
      refine List.Pairwise.filter _ ?_
      rw [List.pairwise_map]
      exact hids
  · -- top-k
    intro cache query k x hx hnot d hd
    rw [retrieve_eq] at hd hnot
    obtain ⟨y, hy, hyd⟩ := List.mem_map.mp hd
    have hxs : x ∈ sortDesc (retrievePos cache query) := (sortDesc_perm _).symm.subset hx
    have hxdrop : x ∈ (sortDesc (retrievePos cache query)).drop k := by
      have hsplitmem : x ∈ (sortDesc (retrievePos cache query)).take k ++
          (sortDesc (retrievePos cache query)).drop k := by
        rw [List.take_append_drop]
        exact hxs
      rcases List.mem_append.mp hsplitmem with hmem | hmem
      · exact absurd (List.mem_map_of_mem toDoc hmem) hnot
      · exact hmem
    have hsorted := sortDesc_sorted (retrievePos cache query)
    have hsplitpw : ((sortDesc (retrievePos cache query)).take k ++
        (sortDesc (retrievePos cache query)).drop k).Pairwise (fun a b => b.1 ≤ a.1) := by
      rw [List.take_append_drop]
      exact hsorted
    have hsplit := List.pairwise_append.mp hsplitpw
    have := hsplit.2.2 y hy x hxdrop
    rw [← hyd]
    exact this
  · -- completeness below k
    intro cache query k hlen
    rw [retrieve_eq]
    rw [List.take_of_length_le (by rw [(sortDesc_perm _).length_eq]; exact hlen)]
    exact (sortDesc_perm _).map toDoc

/-- Concrete cache rows for the C6 witness (ids = id-string lengths,
increasing in insertion order). -/
def crow1 : QnaRow := ⟨"1", "q1", "a1", "Q: q1\nA: a1", "alpha beta"⟩

def crow2 : QnaRow := ⟨"22", "q2", "a2", "Q: q2\nA: a2", "alpha gamma"⟩

/-- C6 (witness): retrieval over a concrete two-row cache is descending and
stable with respect to insertion order. -/
theorem C6_retrieval_witness :
    (_retrieve_from_sheets [crow1, crow2] "alpha" 5).Pairwise
      (fun a b => b.score ≤ a.score ∧
        (a.score = b.score → a.metadata.qna_id.length < b.metadata.qna_id.length)) :=
  C6_retrieval.2.2.2.2.2.1 (fun r => r.qna_id.length) [crow1, crow2] "alpha" 5
    (by simp only [crow1, crow2, List.pairwise_cons]
        exact ⟨fun r hr => by simp at hr; rw [hr]; decide, by simp⟩)

/-! ### C8: scorer monotonicity under appending a common token -/

theorem smRatio_pre8 : smRatio "a ab" "ab a" = 3 / 4 := by
  unfold smRatio
  rw [if_neg (by decide)]
  rw [show smMatches "a ab".data "ab a".data = 3 from by decide]
  norm_num

theorem smRatio_post8 : smRatio "a ab a" "ab a a" = 2 / 3 := by
  unfold smRatio
  rw [if_neg (by decide)]
  rw [show smMatches "a ab a".data "ab a a".data = 4 from by decide]
  norm_num

theorem score_pre8 : _score_doc "a ab" "ab a" = 39 / 40 := by
  unfold _score_doc
  rw [if_neg (by decide)]
  simp only []
  rw [show (pySplit "ab a").dedup = ["ab", "a"] from by decide,
      show (pySplit "a ab").dedup = ["a", "ab"] from by decide]
  rw [show (["ab", "a"].filter (fun t => t ∈ (["a", "ab"] : List String))).length = 2
        from by decide]
  rw [show (["ab", "a"] : List String).any (fun k => strIn k "a ab") = true from by decide]
  rw [smRatio_pre8]
  norm_num

theorem score_post8 : _score_doc "a ab a" "ab a a" = 19 / 20 := by
  unfold _score_doc
  rw [if_neg (by decide)]
  simp only []
  rw [show (pySplit "ab a a").dedup = ["ab", "a"] from by decide,
      show (pySplit "a ab a").dedup = ["ab", "a"] from by decide]
  rw [show (["ab", "a"].filter (fun t => t ∈ (["ab", "a"] : List String))).length = 2
        from by decide]
  rw [show (["ab", "a"] : List String).any (fun k => strIn k "a ab a") = true from by decide]
  rw [smRatio_post8]
  norm_num

/-- C8 (counterexample): `doc = "a ab"`, `query = "ab a"` (both fixed points
of `_normalize_text`), token `"a"` occurring in both.  Appending the token
to both sides leaves the token sets — hence overlap and boost — unchanged,
but the greedy `SequenceMatcher` ratio drops from `3/4` to `2/3`, and the
total score *decreases*: `0.975` to `0.95`. -/
theorem C8_counterexample :
    _normalize_text "a ab" = "a ab" ∧ _normalize_text "ab a" = "ab a" ∧
    _normalize_text "a ab a" = "a ab a" ∧ _normalize_text "ab a a" = "ab a a" ∧
    "a" ∈ pySplit "a ab" ∧ "a" ∈ pySplit "ab a" ∧
    ("a ab" ++ " " ++ "a") = "a ab a" ∧ ("ab a" ++ " " ++ "a") = "ab a a" ∧
    _score_doc ("a ab" ++ " " ++ "a") ("ab a" ++ " " ++ "a") < _score_doc "a ab" "ab a" := by
  refine ⟨by decide, by decide, by decide, by decide, by decide, by decide,
    by decide, by decide, ?_⟩
  rw [show ("a ab" ++ " " ++ "a") = "a ab a" from by decide,
      show ("ab a" ++ " " ++ "a") = "ab a a" from by decide,
      score_pre8, score_post8]
  norm_num

/-- On nonempty inputs `_score_doc` is the clamped weighted sum of its
overlap, sequence-ratio and boost terms. -/
theorem score_doc_decomp (d q : String) (hd : d ≠ "") (hq : q ≠ "") :
    _score_doc d q =
      min 1 (6/10 * overlapTerm d q + 3/10 * smRatio d q + boostTerm d q) := by
  unfold _score_doc overlapTerm boostTerm
  rw [if_neg (by simp [hd, hq])]

lemma modifyHead_append_left {β : Type} (f : β → β) (xs ys : List β) (h : xs ≠ []) :
    (xs ++ ys).modifyHead f = xs.modifyHead f ++ ys := by
  cases xs with
  | nil => exact absurd rfl h
  | cons a as => rfl

lemma splitOnP_sep {α : Type} (p : α → Bool) (c : α) (hc : p c = true)
    (l1 l2 : List α) :
    List.splitOnP p (l1 ++ c :: l2) = List.splitOnP p l1 ++ List.splitOnP p l2 := by
  induction l1 with
  | nil => simp [List.splitOnP_cons, hc, List.splitOnP_nil]
  | cons a as ih =>
    cases ha : p a with
    | true =>
      rw [List.cons_append, List.splitOnP_cons, List.splitOnP_cons, ha,
        if_pos rfl, if_pos rfl, ih]
      rfl
    | false =>
      rw [List.cons_append, List.splitOnP_cons, List.splitOnP_cons, ha,
        if_neg (by decide), if_neg (by decide), ih,
        modifyHead_append_left _ _ _ (List.splitOnP_ne_nil _ _)]

/-- `(a ++ " " ++ b).data` with the separator exposed. -/
lemma data_append_sep (a b : String) :
    (a ++ " " ++ b).data = a.data ++ ' ' :: b.data := by
  simp [String.data_append]

/-- `str.split()` distributes across a single-blank join. -/
lemma pySplit_append_token (a b : String) :
    pySplit (a ++ " " ++ b) = pySplit a ++ pySplit b := by
  unfold pySplit
  rw [data_append_sep, splitOnP_sep isPyWs ' ' (by decide), List.map_append,
    List.filter_append]

lemma splitOnP_headPre {α : Type} (p : α → Bool) :
    ∀ (l u : List α), (List.splitOnP p l).head? = some u → u <+: l := by
  intro l
  induction l with
  | nil =>
    intro u hu
    rw [List.splitOnP_nil] at hu
    cases hu
    exact List.nil_prefix
  | cons c cs ih =>
    intro u hu
    rw [List.splitOnP_cons] at hu
    cases hcp : p c with
    | true =>
      rw [hcp] at hu
      rw [if_pos rfl] at hu
      cases hu
      exact List.nil_prefix
    | false =>
      rw [hcp] at hu
      rw [if_neg (by decide)] at hu
      obtain ⟨hd, tl, he⟩ := List.exists_cons_of_ne_nil (List.splitOnP_ne_nil p cs)
      rw [he, List.modifyHead_cons, List.head?_cons] at hu
      cases hu
      have hpre : hd <+: cs := ih hd (by rw [he]; rfl)
      exact List.cons_prefix_cons.2 ⟨rfl, hpre⟩

lemma splitOnP_mem_isInf {α : Type} (p : α → Bool) :
    ∀ (l u : List α), u ∈ List.splitOnP p l → u <:+: l := by
  intro l
  induction l with
  | nil =>
    intro u hu
    rw [List.splitOnP_nil] at hu
    rw [List.mem_singleton.1 hu]
  | cons c cs ih =>
    intro u hu
    rw [List.splitOnP_cons] at hu
    cases hcp : p c with
    | true =>
      rw [hcp] at hu
      rw [if_pos rfl] at hu
      rcases List.mem_cons.1 hu with rfl | hu2
      · exact List.nil_infix
      · exact List.infix_cons (ih u hu2)
    | false =>
      rw [hcp] at hu
      rw [if_neg (by decide)] at hu
      obtain ⟨hd, tl, he⟩ := List.exists_cons_of_ne_nil (List.splitOnP_ne_nil p cs)
      rw [he, List.modifyHead_cons] at hu
      rcases List.mem_cons.1 hu with rfl | hu2
      · have hpre : hd <+: cs := splitOnP_headPre p cs hd (by rw [he]; rfl)
        exact (List.cons_prefix_cons.2 ⟨rfl, hpre⟩).isInfix
      · exact List.infix_cons (ih u (by rw [he]; exact List.mem_cons_of_mem _ hu2))

lemma splitOnP_mem_false {α : Type} (p : α → Bool) :
    ∀ (l u : List α), u ∈ List.splitOnP p l → ∀ c ∈ u, p c = false := by
  intro l
  induction l with
  | nil =>
    intro u hu c hcu
    rw [List.splitOnP_nil] at hu
    rw [List.mem_singleton.1 hu] at hcu
    exact absurd hcu (List.not_mem_nil c)
  | cons a as ih =>
    intro u hu c hcu
    rw [List.splitOnP_cons] at hu
    cases hap : p a with
    | true =>
      rw [hap] at hu
      rw [if_pos rfl] at hu
      rcases List.mem_cons.1 hu with rfl | hu2
      · exact absurd hcu (List.not_mem_nil c)
      · exact ih u hu2 c hcu
    | false =>
      rw [hap] at hu
      rw [if_neg (by decide)] at hu
      obtain ⟨hd, tl, he⟩ := List.exists_cons_of_ne_nil (List.splitOnP_ne_nil p as)
      rw [he, List.modifyHead_cons] at hu
      rcases List.mem_cons.1 hu with rfl | hu2
      · rcases List.mem_cons.1 hcu with rfl | hcu2
        · exact hap
        · exact ih hd (by rw [he]; exact List.mem_cons_self _ _) c hcu2
      · exact ih u (by rw [he]; exact List.mem_cons_of_mem _ hu2) c hcu

lemma pySplit_mem_ne_empty {s t : String} (h : t ∈ pySplit s) : t ≠ "" := by
  unfold pySplit at h
  exact of_decide_eq_true (List.mem_filter.1 h).2

lemma pySplit_mem_wsFree {s t : String} (h : t ∈ pySplit s) :
    ∀ c ∈ t.data, isPyWs c = false := by
  unfold pySplit at h
  obtain ⟨u, hu, he⟩ := List.mem_map.1 (List.mem_filter.1 h).1
  intro c hc
  refine splitOnP_mem_false isPyWs s.data u hu c ?_
  rw [← he] at hc
  exact hc

lemma pySplit_mem_isInf {s t : String} (h : t ∈ pySplit s) :
    t.data <:+: s.data := by
  unfold pySplit at h
  obtain ⟨u, hu, he⟩ := List.mem_map.1 (List.mem_filter.1 h).1
  have hin := splitOnP_mem_isInf isPyWs s.data u hu
  rw [← he]
  exact hin

lemma pySplit_token {t : String} (hne : t ≠ "")
    (hws : ∀ c ∈ t.data, isPyWs c = false) : pySplit t = [t] := by
  unfold pySplit
  rw [List.splitOnP_eq_single]
  · simp [hne]
  · intro x hx
    rw [hws x hx]
    simp

lemma isPrefixOf_append_self : ∀ (l e : List Char), l.isPrefixOf (l ++ e) = true
  | [], e => by simp [List.isPrefixOf]
  | c :: cs, e => by
    show ((c == c) && cs.isPrefixOf (cs ++ e)) = true
    rw [isPrefixOf_append_self cs e]
    simp

lemma listSub_self_append (l e : List Char) : listSub l (l ++ e) = true := by
  cases l with
  | nil =>
    cases e with
    | nil => rfl
    | cons c t => simp [listSub, List.isPrefixOf]
  | cons c cs =>
    show listSub (c :: cs) (c :: (cs ++ e)) = true
    unfold listSub
    rw [Bool.or_eq_true]
    exact Or.inl (isPrefixOf_append_self (c :: cs) e)

lemma listSub_cons_of {l t : List Char} (c : Char) (h : listSub l t = true) :
    listSub l (c :: t) = true := by
  unfold listSub
  rw [Bool.or_eq_true]
  exact Or.inr h

lemma listSub_of_isInf {needle hay : List Char} (h : needle <:+: hay) :
    listSub needle hay = true := by
  obtain ⟨s, e, he⟩ := h
  subst he
  induction s with
  | nil => exact listSub_self_append needle e
  | cons c s ih => exact listSub_cons_of c ih

lemma dedup_append_mem {l : List String} {t : String} (h : t ∈ l) :
    List.Perm ((l ++ [t]).dedup) l.dedup := by
  refine (List.perm_ext_iff_of_nodup (List.nodup_dedup _) (List.nodup_dedup _)).2 ?_
  intro a
  simp only [List.mem_dedup, List.mem_append, List.mem_singleton]
  constructor
  · rintro (ha | rfl)
    · exact ha
    · exact h
  · exact Or.inl

/-- C8 (amended): appending a single exact-match token `t` common to both
the normalized document and the normalized query leaves the token-overlap
term of `_score_doc` unchanged and pins the intent-boost term at `0.15` on
both sides (the common token is itself a substring of the document), so the
only component of `min(1, 0.6*overlap + 0.3*seq + boost)` that can move is
the `SequenceMatcher` ratio `seq` -- and that term can genuinely drop, as
`C8_counterexample` shows, so the claimed monotonicity of the total score
fails while its overlap and boost components are indeed monotone
(constant) under this operation. -/
theorem C8_amended (d q t : String) (hd : t ∈ pySplit d) (hq : t ∈ pySplit q) :
    overlapTerm (d ++ " " ++ t) (q ++ " " ++ t) = overlapTerm d q ∧
    boostTerm d q = 15 / 100 ∧
    boostTerm (d ++ " " ++ t) (q ++ " " ++ t) = 15 / 100 ∧
    _score_doc d q =
      min 1 (6/10 * overlapTerm d q + 3/10 * smRatio d q + boostTerm d q) ∧
    _score_doc (d ++ " " ++ t) (q ++ " " ++ t) =
      min 1 (6/10 * overlapTerm d q +
        3/10 * smRatio (d ++ " " ++ t) (q ++ " " ++ t) + 15/100) := by
  have hne : t ≠ "" := pySplit_mem_ne_empty hd
  have htok : pySplit t = [t] := pySplit_token hne (pySplit_mem_wsFree hd)
  have hsplitd : pySplit (d ++ " " ++ t) = pySplit d ++ [t] := by
    rw [pySplit_append_token, htok]
  have hsplitq : pySplit (q ++ " " ++ t) = pySplit q ++ [t] := by
    rw [pySplit_append_token, htok]
  have hpd : List.Perm ((pySplit (d ++ " " ++ t)).dedup) ((pySplit d).dedup) := by
    rw [hsplitd]; exact dedup_append_mem hd
  have hpq : List.Perm ((pySplit (q ++ " " ++ t)).dedup) ((pySplit q).dedup) := by
    rw [hsplitq]; exact dedup_append_mem hq
  have hdne : d ≠ "" := by
    intro h0
    rw [h0, show pySplit "" = [] from rfl] at hd
    exact absurd hd (List.not_mem_nil t)
  have hqne : q ≠ "" := by
    intro h0
    rw [h0, show pySplit "" = [] from rfl] at hq
    exact absurd hq (List.not_mem_nil t)
  have hdne2 : d ++ " " ++ t ≠ "" := by
    intro h0
    have h1 : pySplit (d ++ " " ++ t) = [] := by rw [h0]; rfl
    rw [hsplitd] at h1
    exact absurd h1 (by simp)
  have hqne2 : q ++ " " ++ t ≠ "" := by
    intro h0
    have h1 : pySplit (q ++ " " ++ t) = [] := by rw [h0]; rfl
    rw [hsplitq] at h1
    exact absurd h1 (by simp)
  have hsub : strIn t d = true := listSub_of_isInf (pySplit_mem_isInf hd)
  have hsub2 : strIn t (d ++ " " ++ t) = true := by
    refine listSub_of_isInf ⟨d.data ++ [' '], [], ?_⟩
    rw [data_append_sep]
    simp
  have hboost1 : boostTerm d q = 15 / 100 := by
    unfold boostTerm
    rw [if_pos (List.any_eq_true.2 ⟨t, List.mem_dedup.2 hq, hsub⟩)]
  have htmem2 : t ∈ (pySplit (q ++ " " ++ t)).dedup := by
    rw [List.mem_dedup, hsplitq]
    exact List.mem_append_right _ (List.mem_singleton_self t)
  have hboost2 : boostTerm (d ++ " " ++ t) (q ++ " " ++ t) = 15 / 100 := by
    unfold boostTerm
    rw [if_pos (List.any_eq_true.2 ⟨t, htmem2, hsub2⟩)]
  have hfilter :
      ((pySplit (q ++ " " ++ t)).dedup.filter
        (fun x => x ∈ (pySplit (d ++ " " ++ t)).dedup)).length
      = ((pySplit q).dedup.filter (fun x => x ∈ (pySplit d).dedup)).length := by
    rw [List.filter_congr (fun x _ => decide_eq_decide.2 hpd.mem_iff)]
    exact (hpq.filter _).length_eq
  have hoverlap : overlapTerm (d ++ " " ++ t) (q ++ " " ++ t) = overlapTerm d q := by
    unfold overlapTerm
    rw [hfilter, hpd.length_eq, hpq.length_eq]
  refine ⟨hoverlap, hboost1, hboost2, score_doc_decomp d q hdne hqne, ?_⟩
  rw [score_doc_decomp _ _ hdne2 hqne2, hoverlap, hboost2]

/-- Witness for `C8_amended`: the token `"b"` is common to `"a b"` and
`"b a"`, and the theorem's conclusion holds at these inputs. -/
theorem C8_amended_witness :
    ("b" ∈ pySplit "a b" ∧ "b" ∈ pySplit "b a") ∧
    (overlapTerm ("a b" ++ " " ++ "b") ("b a" ++ " " ++ "b") = overlapTerm "a b" "b a" ∧
     boostTerm "a b" "b a" = 15 / 100 ∧
     boostTerm ("a b" ++ " " ++ "b") ("b a" ++ " " ++ "b") = 15 / 100 ∧
     _score_doc "a b" "b a" =
       min 1 (6/10 * overlapTerm "a b" "b a" + 3/10 * smRatio "a b" "b a" +
         boostTerm "a b" "b a") ∧
     _score_doc ("a b" ++ " " ++ "b") ("b a" ++ " " ++ "b") =
       min 1 (6/10 * overlapTerm "a b" "b a" +
         3/10 * smRatio ("a b" ++ " " ++ "b") ("b a" ++ " " ++ "b") + 15/100)) :=
  ⟨⟨by decide, by decide⟩, C8_amended "a b" "b a" "b" (by decide) (by decide)⟩

end StayEasy
